import Mathlib

/-!
# Orchestration layer of the inverse compositional alignment tool

A shallow embedding of `src/main.cpp`: the command-line reader
(`read_parameters`), the grayscale reducer (`rgb2gray`) and the pipeline of
`main` (image and mask loading, pyramid depth policy, parameter vector,
solver call, output encoder).

Conventions of the embedding.
* `int` values are mathematical integers; products such as `nx*ny*nz` are not
  reduced modulo `2^32`. The conversion of the level bound of line 351 to `int`
  is defined only for values in the range of a 32-bit `int`.
* `double` configuration values are `Dbl`: a finite rational, an infinity or
  NaN, with the IEEE comparison rules (every comparison with NaN is false).
* pixel values and the seeds `P0..P7` are rationals. The expression of the
  level bound (line 351) is read over the real numbers, with exact logarithms
  and an exact quotient: the rounding of the program's single-precision
  logarithm and of its `double` arithmetic is not modelled, so at the sizes
  where the quotient of logarithms is an integer the program's value can differ
  by one from the value of the model.
* undefined behaviour (a null `argv` entry given to `strcmp`, `atoi` or
  `atof`, an index outside a buffer, the conversion to `int` of NaN or of a
  value outside the range of `int`) is an explicit `Fault`.
* code that is not in `main.cpp` (`atoi`, `atof`, `read_image`, the solver,
  `bicubic_interpolation`, `params2matrix`, the `SMART_PARAMETER` seeds) is a
  field of `Env`.
-/

namespace InvComp

/-! ## Values -/

/-- A `double` as far as comparisons are concerned. -/
inductive Dbl where
  | fin (q : ℚ)
  | pinf
  | ninf
  | nan
  deriving DecidableEq

/-- IEEE `a < b`. -/
def Dbl.lt : Dbl → Dbl → Bool
  | .nan, _ => false
  | _, .nan => false
  | .fin a, .fin b => decide (a < b)
  | .ninf, .ninf => false
  | .ninf, _ => true
  | _, .ninf => false
  | .pinf, _ => false
  | .fin _, .pinf => true

/-- IEEE `a <= b`. -/
def Dbl.le : Dbl → Dbl → Bool
  | .nan, _ => false
  | _, .nan => false
  | .fin a, .fin b => decide (a ≤ b)
  | .ninf, _ => true
  | _, .pinf => true
  | .pinf, _ => false
  | .fin _, .ninf => false

/-- The ways in which the C++ code can leave defined behaviour. -/
inductive Fault where
  | nullArg
  | outOfBounds
  | badAlloc
  | badConversion
  | fuel
  deriving DecidableEq

/-! ## Defaults (`PAR_DEFAULT_*`) -/

def PAR_DEFAULT_NSCALES : Int := 0
def PAR_DEFAULT_ZFACTOR : Dbl := .fin (1/2)
def PAR_DEFAULT_TOL : Dbl := .fin (1/1000)
def PAR_DEFAULT_TYPE : Int := 8
def PAR_DEFAULT_ROBUST : Int := 3
def PAR_DEFAULT_LAMBDA : Dbl := .fin 0
def PAR_DEFAULT_VERBOSE : Int := 0
def PAR_DEFAULT_OUTFILE : String := "transform.mat"
def PAR_DEFAULT_FIRST_SCALE : Int := 0
def PAR_DEFAULT_GRAYMETHOD : Int := 1
def PAR_DEFAULT_DELTA : Int := 5
def PAR_DEFAULT_NANIFOUTSIDE : Int := 1
def PAR_DEFAULT_TYPE_GRADIENT : Int := 3
def PAR_DEFAULT_OUTPUT : Int := 0

/-! ## `read_parameters` -/

/-- The output parameters of `read_parameters`. -/
structure Settings where
  image1 : String
  image2 : String
  outfile : String
  nscales : Int
  zfactor : Dbl
  TOL : Dbl
  nparams : Int
  robust : Int
  lambda : Dbl
  laplacian : Int
  verbose : Int
  first_scale : Int
  graymethod : Int
  delta : Int
  nanifoutside : Int
  type_gradient : Int
  type_output : Int
  deriving DecidableEq

/-- The assignments of lines 140-159: the two image arguments and the defaults.
`argv[1]` and `argv[2]` exist because `argc >= 3` on this branch. -/
def assignDefaults (argv : List String) (init : Settings) : Settings :=
  { image1 := argv.getD 1 init.image1
    image2 := argv.getD 2 init.image2
    outfile := PAR_DEFAULT_OUTFILE
    nscales := PAR_DEFAULT_NSCALES
    zfactor := PAR_DEFAULT_ZFACTOR
    TOL := PAR_DEFAULT_TOL
    nparams := PAR_DEFAULT_TYPE
    robust := PAR_DEFAULT_ROBUST
    lambda := PAR_DEFAULT_LAMBDA
    laplacian := 0
    verbose := PAR_DEFAULT_VERBOSE
    first_scale := PAR_DEFAULT_FIRST_SCALE
    graymethod := PAR_DEFAULT_GRAYMETHOD
    delta := PAR_DEFAULT_DELTA
    nanifoutside := PAR_DEFAULT_NANIFOUTSIDE
    type_gradient := PAR_DEFAULT_TYPE_GRADIENT
    type_output := PAR_DEFAULT_OUTPUT }

/-- One guarded option test of the loop,
`if(strcmp(argv[i],flag)==0) if(i<argc-1) x = conv(argv[++i]);`
on the state `(i, settings)`. `argv[argc]` is the null pointer: handing it to
`strcmp`, `atoi` or `atof` is a fault. -/
def optValue (argv : List String) (flag : String) (set : String → Settings → Settings)
    (s : Nat × Settings) : Except Fault (Nat × Settings) :=
  match argv[s.1]? with
  | none => .error .nullArg
  | some a =>
    if a = flag then
      if s.1 < argv.length - 1 then
        match argv[s.1 + 1]? with
        | some v => .ok (s.1 + 1, set v s.2)
        | none => .error .nullArg
      else .ok s
    else .ok s

/-- The `-L` test, `if(strcmp(argv[i],"-L")==0) laplacian=atoi(argv[++i]);`:
the next token is taken without a test on `i`. -/
def optLaplacian (atoi : String → Int) (argv : List String)
    (s : Nat × Settings) : Except Fault (Nat × Settings) :=
  match argv[s.1]? with
  | none => .error .nullArg
  | some a =>
    if a = "-L" then
      match argv[s.1 + 1]? with
      | some v => .ok (s.1 + 1, { s.2 with laplacian := atoi v })
      | none => .error .nullArg
    else .ok s

/-- The `-v` test, `if(strcmp(argv[i],"-v")==0) verbose=1;`. -/
def optVerbose (argv : List String) (s : Nat × Settings) : Except Fault (Nat × Settings) :=
  match argv[s.1]? with
  | none => .error .nullArg
  | some a => if a = "-v" then .ok (s.1, { s.2 with verbose := 1 }) else .ok s

/-- One iteration of the `while(i<argc)` loop, lines 164-222: the fifteen
tests in sequence (they are not chained by `else`), then `i++`. -/
def loopBody (atoi : String → Int) (atof : String → Dbl) (argv : List String)
    (s : Nat × Settings) : Except Fault (Nat × Settings) := do
  let s ← optValue argv "-f" (fun v c => { c with outfile := v }) s
  let s ← optValue argv "-n" (fun v c => { c with nscales := atoi v }) s
  let s ← optValue argv "-z" (fun v c => { c with zfactor := atof v }) s
  let s ← optValue argv "-e" (fun v c => { c with TOL := atof v }) s
  let s ← optValue argv "-t" (fun v c => { c with nparams := atoi v }) s
  let s ← optValue argv "-r" (fun v c => { c with robust := atoi v }) s
  let s ← optValue argv "-l" (fun v c => { c with lambda := atof v }) s
  let s ← optValue argv "-s" (fun v c => { c with first_scale := atoi v }) s
  let s ← optValue argv "-c" (fun v c => { c with graymethod := atoi v }) s
  let s ← optValue argv "-d" (fun v c => { c with delta := atoi v }) s
  let s ← optValue argv "-p" (fun v c => { c with nanifoutside := atoi v }) s
  let s ← optValue argv "-g" (fun v c => { c with type_gradient := atoi v }) s
  let s ← optValue argv "-o" (fun v c => { c with type_output := atoi v }) s
  let s ← optLaplacian atoi argv s
  let s ← optVerbose argv s
  pure (s.1 + 1, s.2)

/-- The `while(i<argc)` loop, with a bound on the number of iterations. -/
def optionLoop (atoi : String → Int) (atof : String → Dbl) (argv : List String) :
    Nat → Nat × Settings → Except Fault (Nat × Settings)
  | 0, s => if s.1 < argv.length then .error .fuel else .ok s
  | fuel + 1, s =>
    if s.1 < argv.length then
      match loopBody atoi atof argv s with
      | .ok t => optionLoop atoi atof argv fuel t
      | .error e => .error e
    else .ok s

/-- Lines 226-227. -/
def checkZfactor (c : Settings) : Settings :=
  if c.zfactor.le (.fin 0) || (Dbl.fin 1).le c.zfactor
  then { c with zfactor := PAR_DEFAULT_ZFACTOR } else c

/-- Lines 228-229. -/
def checkTOL (c : Settings) : Settings :=
  if c.TOL.lt (.fin 0) then { c with TOL := PAR_DEFAULT_TOL } else c

/-- Lines 230-231. -/
def checkNparams (c : Settings) : Settings :=
  if c.nparams ≠ 2 ∧ c.nparams ≠ 3 ∧ c.nparams ≠ 4 ∧ c.nparams ≠ 6 ∧ c.nparams ≠ 8
  then { c with nparams := PAR_DEFAULT_TYPE } else c

/-- Lines 232-233. -/
def checkRobust (c : Settings) : Settings :=
  if c.robust < 0 ∨ c.robust > 4 then { c with robust := PAR_DEFAULT_ROBUST } else c

/-- Lines 234-235. -/
def checkLambda (c : Settings) : Settings :=
  if c.lambda.lt (.fin 0) then { c with lambda := PAR_DEFAULT_LAMBDA } else c

/-- Lines 236-237. -/
def checkDelta (c : Settings) : Settings :=
  if c.delta < 0 then { c with delta := PAR_DEFAULT_DELTA } else c

/-- Lines 238-239. -/
def checkNanifoutside (c : Settings) : Settings :=
  if c.nanifoutside ≠ 0 ∧ c.nanifoutside ≠ 1
  then { c with nanifoutside := PAR_DEFAULT_NANIFOUTSIDE } else c

/-- Lines 240-241. -/
def checkGraymethod (c : Settings) : Settings :=
  if c.graymethod ≠ 0 ∧ c.graymethod ≠ 1
  then { c with graymethod := PAR_DEFAULT_GRAYMETHOD } else c

/-- Lines 242-243. -/
def checkTypeGradient (c : Settings) : Settings :=
  if c.type_gradient < 0 ∨ c.type_gradient > 5
  then { c with type_gradient := PAR_DEFAULT_TYPE_GRADIENT } else c

/-- Lines 244-245. -/
def checkTypeOutput (c : Settings) : Settings :=
  if c.type_output < 0 ∨ c.type_output > 2
  then { c with type_output := PAR_DEFAULT_OUTPUT } else c

/-- The checks of lines 225-245, in the order of the source: an out-of-range
value is replaced by its default. -/
def checkValues (c : Settings) : Settings :=
  checkTypeOutput (checkTypeGradient (checkGraymethod (checkNanifoutside (checkDelta
    (checkLambda (checkRobust (checkNparams (checkTOL (checkZfactor c)))))))))

/-- The settings as the option loop leaves them, before the checks. `init`
holds the caller's (uninitialised) variables. -/
def rawSettings (atoi : String → Int) (atof : String → Dbl) (argv : List String)
    (init : Settings) : Except Fault Settings :=
  match optionLoop atoi atof argv argv.length (3, assignDefaults argv init) with
  | .ok s => .ok s.2
  | .error e => .error e

/-- `read_parameters`: the returned `int` and the output parameters. With
fewer than three arguments the help is printed, `0` is returned and the
caller's variables are untouched. -/
def read_parameters (atoi : String → Int) (atof : String → Dbl) (argv : List String)
    (init : Settings) : Except Fault (Int × Settings) :=
  if argv.length < 3 then .ok (0, init)
  else
    match rawSettings atoi atof argv init with
    | .ok c => .ok (1, checkValues c)
    | .error e => .error e

/-! ## `rgb2gray` -/

/-- The list `[f 0, ..., f (n-1)]`, computed in increasing index order; a
fault at any index is a fault of the whole loop. -/
def tabulate (f : Nat → Except Fault ℚ) : Nat → Except Fault (List ℚ)
  | 0 => .ok []
  | n + 1 =>
    match tabulate f n with
    | .ok l =>
      match f n with
      | .ok a => .ok (l ++ [a])
      | .error e => .error e
    | .error e => .error e

/-- Reading `buf[i]`. -/
def readAt (buf : List ℚ) (i : Nat) : Except Fault ℚ :=
  match buf[i]? with
  | some v => .ok v
  | none => .error .outOfBounds

/-- The literal `0.3333333333333` of line 267. -/
def third : ℚ := 3333333333333 / 10000000000000

/-- `rgb2gray`: the values written to `gray[0..nx*ny-1]`. The caller allocates
`gray` with `nx*ny` entries, so every entry of the buffer is written. -/
def rgb2gray (rgb : List ℚ) (nx ny nz : Int) : Except Fault (List ℚ) :=
  let size := (nx * ny).toNat
  if nz = 3 then
    tabulate (fun i => do
      let r ← readAt rgb (i * 3)
      let g ← readAt rgb (i * 3 + 1)
      let b ← readAt rgb (i * 3 + 2)
      pure (third * (r + g + b))) size
  else
    tabulate (fun i => readAt rgb i) size

/-! ## `main` -/

/-- What a call `read_image(name, &buf, nx, ny, nz)` leaves behind: the
returned flag, the buffer and the values of the three reference parameters
after the call. -/
structure ReadResult where
  ok : Bool
  buf : List ℚ
  nx : Int
  ny : Int
  nz : Int
  deriving DecidableEq

/-- The arguments of a call of `pyramidal_inverse_compositional_algorithm`. -/
structure SolverCall where
  I1 : List ℚ
  I2 : List ℚ
  M1 : Option (List ℚ)
  M2 : Option (List ℚ)
  p : List (Option ℚ)
  nparams : Int
  nx : Int
  ny : Int
  nz : Int
  nscales : Int
  zfactor : Dbl
  TOL : Dbl
  robust : Int
  lambda : Dbl
  first_scale : Int
  nanifoutside : Int
  delta : Int
  type_gradient : Int
  laplacian : Int
  verbose : Int

/-- The arguments of a call of `bicubic_interpolation`, the two trailing
constants included. -/
structure WarpCall where
  input : List ℚ
  p : List (Option ℚ)
  nparams : Int
  nx : Int
  ny : Int
  nz : Int
  delta : Int
  nanifoutside : Int

/-- A call of one of the three writers of `file.h`. -/
inductive Output where
  | save (outfile : String) (p : List (Option ℚ)) (nparams : Int)
  | save_matrix (outfile : String) (mat : List ℚ) (n : Int)
  | save_image (outfile : String) (img : List ℚ) (nx ny nz : Int)

/-- The code outside `main.cpp` and the state `main` starts from. -/
structure Env where
  atoi : String → Int
  atof : String → Dbl
  read_image : String → ReadResult
  seed : Nat → ℚ
  solver : SolverCall → List (Option ℚ)
  bicubic : WarpCall → Nat → ℚ
  params2matrix : List (Option ℚ) → Int → List ℚ
  init : Settings

/-- The observable course of a run of `main`. -/
structure Run where
  status : Int
  solver : Option SolverCall
  warp : Option WarpCall
  output : Option Output

def EXIT_SUCCESS : Int := 0
def EXIT_FAILURE : Int := 1

/-- The effect of `strstr(s, ":")` followed by `*m = 0; m++` on the characters
of `s`: the part before the first colon and, when there is a colon, the part
after it. -/
def splitColon : List Char → List Char × Option (List Char)
  | [] => ([], none)
  | c :: cs =>
    if c = ':' then ([], some cs)
    else ((c :: (splitColon cs).1), (splitColon cs).2)

/-- Lines 321-330 on one image reference: image path and optional mask path. -/
def imageRef (s : String) : String × Option String :=
  (String.mk (splitColon s.data).1, (splitColon s.data).2.map String.mk)

/-- The variables of `main` after lines 321-344. -/
structure Loaded where
  correct1 : Bool
  correct2 : Bool
  I1 : List ℚ
  I2 : List ℚ
  M1 : Option (List ℚ)
  M2 : Option (List ℚ)
  nx : Int
  ny : Int
  nz : Int
  nx1 : Int
  ny1 : Int
  nz1 : Int

/-- Lines 321-344: the two images are read, then the masks that are named.
Every mask is read into `nx, ny, nz`, the variables of the first image. -/
def load (read_image : String → ReadResult) (c : Settings) : Loaded :=
  let ref1 := imageRef c.image1
  let ref2 := imageRef c.image2
  let r1 := read_image ref1.1
  let r2 := read_image ref2.1
  let s0 : Loaded :=
    { correct1 := r1.ok, correct2 := r2.ok, I1 := r1.buf, I2 := r2.buf,
      M1 := none, M2 := none, nx := r1.nx, ny := r1.ny, nz := r1.nz,
      nx1 := r2.nx, ny1 := r2.ny, nz1 := r2.nz }
  let s1 : Loaded :=
    match ref1.2 with
    | some m =>
      let r := read_image m
      { s0 with correct1 := s0.correct1 && r.ok, M1 := some r.buf,
                nx := r.nx, ny := r.ny, nz := r.nz }
    | none => s0
  let s2 : Loaded :=
    match ref2.2 with
    | some m =>
      let r := read_image m
      { s1 with correct2 := s1.correct2 && r.ok, M2 := some r.buf,
                nx := r.nx, ny := r.ny, nz := r.nz }
    | none => s1
  s2

/-- The test of line 347. -/
def accepted (l : Loaded) : Bool :=
  l.correct1 && l.correct2 && decide (l.nx = l.nx1) && decide (l.ny = l.ny1)
    && decide (l.nz = l.nz1)

/-- Conversion of a `double` to `int`: truncation toward zero. The result is
the converted value when it lies in the range of a 32-bit `int`; for other
values the conversion is undefined, see `levelCount`. -/
noncomputable def truncInt (x : ℝ) : ℤ := if 0 ≤ x then ⌊x⌋ else ⌈x⌉

/-- The expression of line 351, `1+log(D/(float)limit)/log(1./zfactor)` with
`limit = 32`, read over the real numbers (exact logarithms, exact quotient, no
rounding) and truncated toward zero. -/
noncomputable def levelBound (D : ℤ) (z : ℝ) : ℤ :=
  truncInt (1 + Real.log ((D : ℝ) / 32) / Real.log (1 / z))

/-- Line 351 on the values a `double` zoom factor and an `int` size can take.
A positive finite `zfactor` other than `1` and a positive size give a finite
value, whose conversion to `int` is defined when the truncated value is in the
range of `int` and undefined otherwise; a zero or infinite `zfactor` makes the
quotient `0`; in every other case the value to convert is infinite or NaN. -/
noncomputable def levelCount (D : ℤ) : Dbl → Except Fault ℤ
  | .fin q =>
    if 0 < D ∧ 0 < q ∧ q ≠ 1 then
      if -2147483648 ≤ levelBound D (q : ℝ) ∧ levelBound D (q : ℝ) ≤ 2147483647
      then .ok (levelBound D (q : ℝ)) else .error .badConversion
    else if 0 < D ∧ q = 0 then .ok 1
    else .error .badConversion
  | .pinf => if 0 < D then .ok 1 else .error .badConversion
  | .ninf => if 0 < D then .ok 1 else .error .badConversion
  | .nan => .error .badConversion

/-- Line 352, `if (N<nscales || nscales <= 0) nscales= N;`. -/
def depthPolicy (N nscales : Int) : Int :=
  if N < nscales ∨ nscales ≤ 0 then N else nscales

/-- The assignment `p[i] = v` on a buffer of `p.length` entries. -/
def writeAt (p : List (Option ℚ)) (i : Nat) (v : ℚ) : Except Fault (List (Option ℚ)) :=
  if i < p.length then .ok (p.set i (some v)) else .error .outOfBounds

def initFrom2 (P : Nat → ℚ) (p : List (Option ℚ)) : Except Fault (List (Option ℚ)) := do
  let p ← writeAt p 0 (P 0)
  writeAt p 1 (P 1)

def initFrom3 (P : Nat → ℚ) (p : List (Option ℚ)) : Except Fault (List (Option ℚ)) := do
  let p ← writeAt p 2 (P 2)
  initFrom2 P p

def initFrom4 (P : Nat → ℚ) (p : List (Option ℚ)) : Except Fault (List (Option ℚ)) := do
  let p ← writeAt p 3 (P 3)
  initFrom3 P p

def initFrom6 (P : Nat → ℚ) (p : List (Option ℚ)) : Except Fault (List (Option ℚ)) := do
  let p ← writeAt p 4 (P 4)
  let p ← writeAt p 5 (P 5)
  initFrom4 P p

def initFrom8 (P : Nat → ℚ) (p : List (Option ℚ)) : Except Fault (List (Option ℚ)) := do
  let p ← writeAt p 6 (P 6)
  let p ← writeAt p 7 (P 7)
  initFrom6 P p

/-- Lines 365-385: `new double[nparams]` (every entry uninitialised, `none`)
and the `switch` with its fall-through cases. -/
def initParams (P : Nat → ℚ) (nparams : Int) : Except Fault (List (Option ℚ)) :=
  if nparams < 0 then .error .badAlloc
  else
    let p := List.replicate nparams.toNat (none : Option ℚ)
    if nparams = 8 then initFrom8 P p
    else if nparams = 6 then initFrom6 P p
    else if nparams = 4 then initFrom4 P p
    else if nparams = 3 then initFrom3 P p
    else if nparams = 2 then initFrom2 P p
    else .ok p

/-- `rgb2gray` on a mask pointer that may be null (lines 395-404). -/
def grayMask (nx ny nz : Int) : Option (List ℚ) → Except Fault (Option (List ℚ))
  | none => .ok none
  | some m =>
    match rgb2gray m nx ny nz with
    | .ok g => .ok (some g)
    | .error e => .error e

/-- Lines 387-434: the arguments the solver is called with. -/
def solverArgs (c : Settings) (l : Loaded) (nscales : Int) (p : List (Option ℚ)) :
    Except Fault SolverCall :=
  if c.graymethod ≠ 0 ∧ l.nz = 3 then do
    let I1g ← rgb2gray l.I1 l.nx l.ny l.nz
    let I2g ← rgb2gray l.I2 l.nx l.ny l.nz
    let M1g ← grayMask l.nx l.ny l.nz l.M1
    let M2g ← grayMask l.nx l.ny l.nz l.M2
    pure { I1 := I1g, I2 := I2g, M1 := M1g, M2 := M2g, p := p, nparams := c.nparams,
           nx := l.nx, ny := l.ny, nz := 1, nscales := nscales, zfactor := c.zfactor,
           TOL := c.TOL, robust := c.robust, lambda := c.lambda,
           first_scale := c.first_scale, nanifoutside := c.nanifoutside,
           delta := c.delta, type_gradient := c.type_gradient,
           laplacian := c.laplacian, verbose := c.verbose }
  else
    pure { I1 := l.I1, I2 := l.I2, M1 := l.M1, M2 := l.M2, p := p, nparams := c.nparams,
           nx := l.nx, ny := l.ny, nz := l.nz, nscales := nscales, zfactor := c.zfactor,
           TOL := c.TOL, robust := c.robust, lambda := c.lambda,
           first_scale := c.first_scale, nanifoutside := c.nanifoutside,
           delta := c.delta, type_gradient := c.type_gradient,
           laplacian := c.laplacian, verbose := c.verbose }

/-- The arguments of the call of line 445. -/
def warpArgs (c : Settings) (l : Loaded) (p : List (Option ℚ)) : WarpCall :=
  { input := l.I2, p := p, nparams := c.nparams, nx := l.nx, ny := l.ny, nz := l.nz,
    delta := 0, nanifoutside := 1 }

/-- Lines 436-448: the output encoder. `Iw` has `nx*ny*nz` entries, filled by
`bicubic_interpolation`. -/
def encode (env : Env) (c : Settings) (l : Loaded) (p : List (Option ℚ)) :
    Option WarpCall × Option Output :=
  if c.type_output = 1 then
    (none, some (.save_matrix c.outfile (env.params2matrix p c.nparams) 9))
  else if c.type_output = 0 then
    (none, some (.save c.outfile p c.nparams))
  else if c.type_output = 2 then
    let w := warpArgs c l p
    let Iw := (List.range (l.nx * l.ny * l.nz).toNat).map (env.bicubic w)
    (some w, some (.save_image c.outfile Iw l.nx l.ny l.nz))
  else (none, none)

/-- Lines 352-463 for a given value `N` of line 351: depth policy, parameter
vector, solver call, output encoder, `exit(EXIT_SUCCESS)`. -/
def estimateAt (env : Env) (c : Settings) (l : Loaded) (N : Int) : Except Fault Run := do
  let nscales := depthPolicy N c.nscales
  let p ← initParams env.seed c.nparams
  let call ← solverArgs c l nscales p
  let p := env.solver call
  let out := encode env c l p
  pure { status := EXIT_SUCCESS, solver := some call, warp := out.1, output := out.2 }

/-- Lines 349-463, the branch taken when the test of line 347 holds. -/
noncomputable def estimate (env : Env) (c : Settings) (l : Loaded) : Except Fault Run :=
  match levelCount (min l.nx l.ny) c.zfactor with
  | .ok N => estimateAt env c l N
  | .error e => .error e

/-- The run in which nothing is computed or written. -/
def idle (status : Int) : Run :=
  { status := status, solver := none, warp := none, output := none }

/-- The function `main`. -/
noncomputable def main (env : Env) (argv : List String) : Except Fault Run :=
  match read_parameters env.atoi env.atof argv env.init with
  | .error e => .error e
  | .ok (result, c) =>
    if result ≠ 0 then
      let l := load env.read_image c
      if accepted l then estimate env c l
      else .ok (idle EXIT_FAILURE)
    else .ok (idle EXIT_SUCCESS)

/-- A buffer of `n` zero values. -/
def blank (n : Nat) : List ℚ := List.replicate n 0

/-- Some values for the variables `main` declares without initialising. -/
def noSettings : Settings :=
  { image1 := "", image2 := "", outfile := "", nscales := 0, zfactor := .nan, TOL := .nan,
    nparams := 0, robust := 0, lambda := .nan, laplacian := 0, verbose := 0, first_scale := 0,
    graymethod := 0, delta := 0, nanifoutside := 0, type_gradient := 0, type_output := 0 }

/-- A small file system: single-channel images of 64x64, 32x32, 16x16 and
10x10 pixels and 3-channel images of 32x32 pixels; every other name fails to
decode. -/
def sampleFiles : String → ReadResult := fun name =>
  if name = "a64.png" then { ok := true, buf := blank 4096, nx := 64, ny := 64, nz := 1 }
  else if name = "a32.png" then { ok := true, buf := blank 1024, nx := 32, ny := 32, nz := 1 }
  else if name = "b32.png" then { ok := true, buf := blank 1024, nx := 32, ny := 32, nz := 1 }
  else if name = "m32.png" then { ok := true, buf := blank 1024, nx := 32, ny := 32, nz := 1 }
  else if name = "m16.png" then { ok := true, buf := blank 256, nx := 16, ny := 16, nz := 1 }
  else if name = "a10.png" then { ok := true, buf := blank 100, nx := 10, ny := 10, nz := 1 }
  else if name = "b10.png" then { ok := true, buf := blank 100, nx := 10, ny := 10, nz := 1 }
  else if name = "rgb1.png" then { ok := true, buf := blank 3072, nx := 32, ny := 32, nz := 3 }
  else if name = "rgb2.png" then { ok := true, buf := blank 3072, nx := 32, ny := 32, nz := 3 }
  else { ok := false, buf := [], nx := 0, ny := 0, nz := 0 }

/-- The values of `atoi` on the numerals used below (`0` on text without a
leading numeral). -/
def sampleAtoi : String → Int := fun s =>
  if s = "2" then 2 else if s = "5" then 5 else 0

/-- The values of `atof` on the texts used below; `strtod` reads `nan` as NaN. -/
def sampleAtof : String → Dbl := fun s =>
  if s = "nan" then .nan else .fin 0

/-- An environment over `sampleFiles`: zero seeds, a solver that returns the
parameters it was given, a kernel that writes zeros. -/
def sampleEnv : Env :=
  { atoi := sampleAtoi, atof := sampleAtof, read_image := sampleFiles, seed := fun _ => 0,
    solver := fun call => call.p, bicubic := fun _ _ => 0, params2matrix := fun _ _ => [],
    init := noSettings }

/-- The value of `atof` on the text `0.999999999999` (the decimal value; the
nearest `double` differs from it by less than `10^-16`). -/
def zoomAtof : String → Dbl := fun s =>
  if s = "0.999999999999" then .fin (999999999999 / 1000000000000) else .fin 0

/-- The environment `sampleEnv` with `zoomAtof` for `atof`. -/
def zoomEnv : Env := { sampleEnv with atof := zoomAtof }

/-! # Theorems -/

/-! ## `read_parameters`: the checks -/

theorem checkZfactor_eq (c : Settings) : checkZfactor c =
    { c with zfactor := if c.zfactor.le (.fin 0) || (Dbl.fin 1).le c.zfactor
        then PAR_DEFAULT_ZFACTOR else c.zfactor } := by
  unfold checkZfactor; split <;> rfl

theorem checkTOL_eq (c : Settings) : checkTOL c =
    { c with TOL := if c.TOL.lt (.fin 0) then PAR_DEFAULT_TOL else c.TOL } := by
  unfold checkTOL; split <;> rfl

theorem checkNparams_eq (c : Settings) : checkNparams c =
    { c with nparams :=
        if c.nparams ≠ 2 ∧ c.nparams ≠ 3 ∧ c.nparams ≠ 4 ∧ c.nparams ≠ 6 ∧ c.nparams ≠ 8
        then PAR_DEFAULT_TYPE else c.nparams } := by
  unfold checkNparams; split <;> rfl

theorem checkRobust_eq (c : Settings) : checkRobust c =
    { c with robust := if c.robust < 0 ∨ c.robust > 4 then PAR_DEFAULT_ROBUST else c.robust } := by
  unfold checkRobust; split <;> rfl

theorem checkLambda_eq (c : Settings) : checkLambda c =
    { c with lambda := if c.lambda.lt (.fin 0) then PAR_DEFAULT_LAMBDA else c.lambda } := by
  unfold checkLambda; split <;> rfl

theorem checkDelta_eq (c : Settings) : checkDelta c =
    { c with delta := if c.delta < 0 then PAR_DEFAULT_DELTA else c.delta } := by
  unfold checkDelta; split <;> rfl

theorem checkNanifoutside_eq (c : Settings) : checkNanifoutside c =
    { c with nanifoutside := if c.nanifoutside ≠ 0 ∧ c.nanifoutside ≠ 1
        then PAR_DEFAULT_NANIFOUTSIDE else c.nanifoutside } := by
  unfold checkNanifoutside; split <;> rfl

theorem checkGraymethod_eq (c : Settings) : checkGraymethod c =
    { c with graymethod := if c.graymethod ≠ 0 ∧ c.graymethod ≠ 1
        then PAR_DEFAULT_GRAYMETHOD else c.graymethod } := by
  unfold checkGraymethod; split <;> rfl

theorem checkTypeGradient_eq (c : Settings) : checkTypeGradient c =
    { c with type_gradient := if c.type_gradient < 0 ∨ c.type_gradient > 5
        then PAR_DEFAULT_TYPE_GRADIENT else c.type_gradient } := by
  unfold checkTypeGradient; split <;> rfl

theorem checkTypeOutput_eq (c : Settings) : checkTypeOutput c =
    { c with type_output := if c.type_output < 0 ∨ c.type_output > 2
        then PAR_DEFAULT_OUTPUT else c.type_output } := by
  unfold checkTypeOutput; split <;> rfl

/-- The checks act field by field: every checked setting is replaced by its
default when its own test fires and is kept otherwise; the other settings are
kept. -/
theorem checkValues_eq (c : Settings) : checkValues c =
    { c with
      zfactor := if c.zfactor.le (.fin 0) || (Dbl.fin 1).le c.zfactor
        then PAR_DEFAULT_ZFACTOR else c.zfactor
      TOL := if c.TOL.lt (.fin 0) then PAR_DEFAULT_TOL else c.TOL
      nparams :=
        if c.nparams ≠ 2 ∧ c.nparams ≠ 3 ∧ c.nparams ≠ 4 ∧ c.nparams ≠ 6 ∧ c.nparams ≠ 8
        then PAR_DEFAULT_TYPE else c.nparams
      robust := if c.robust < 0 ∨ c.robust > 4 then PAR_DEFAULT_ROBUST else c.robust
      lambda := if c.lambda.lt (.fin 0) then PAR_DEFAULT_LAMBDA else c.lambda
      delta := if c.delta < 0 then PAR_DEFAULT_DELTA else c.delta
      nanifoutside := if c.nanifoutside ≠ 0 ∧ c.nanifoutside ≠ 1
        then PAR_DEFAULT_NANIFOUTSIDE else c.nanifoutside
      graymethod := if c.graymethod ≠ 0 ∧ c.graymethod ≠ 1
        then PAR_DEFAULT_GRAYMETHOD else c.graymethod
      type_gradient := if c.type_gradient < 0 ∨ c.type_gradient > 5
        then PAR_DEFAULT_TYPE_GRADIENT else c.type_gradient
      type_output := if c.type_output < 0 ∨ c.type_output > 2
        then PAR_DEFAULT_OUTPUT else c.type_output } := by
  simp only [checkValues, checkZfactor_eq, checkTOL_eq, checkNparams_eq, checkRobust_eq,
    checkLambda_eq, checkDelta_eq, checkNanifoutside_eq, checkGraymethod_eq,
    checkTypeGradient_eq, checkTypeOutput_eq]

/-- After the checks the integer settings lie in their ranges, and each
`double` setting lies in its range or is NaN. -/
theorem checkValues_ranges (c : Settings) :
    ((checkValues c).zfactor = .nan ∨
      ((Dbl.fin 0).lt (checkValues c).zfactor = true ∧
        (checkValues c).zfactor.lt (.fin 1) = true)) ∧
    ((checkValues c).TOL = .nan ∨ (Dbl.fin 0).le (checkValues c).TOL = true) ∧
    ((checkValues c).nparams = 2 ∨ (checkValues c).nparams = 3 ∨ (checkValues c).nparams = 4 ∨
      (checkValues c).nparams = 6 ∨ (checkValues c).nparams = 8) ∧
    (0 ≤ (checkValues c).robust ∧ (checkValues c).robust ≤ 4) ∧
    ((checkValues c).lambda = .nan ∨ (Dbl.fin 0).le (checkValues c).lambda = true) ∧
    0 ≤ (checkValues c).delta ∧
    ((checkValues c).nanifoutside = 0 ∨ (checkValues c).nanifoutside = 1) ∧
    ((checkValues c).graymethod = 0 ∨ (checkValues c).graymethod = 1) ∧
    (0 ≤ (checkValues c).type_gradient ∧ (checkValues c).type_gradient ≤ 5) ∧
    (0 ≤ (checkValues c).type_output ∧ (checkValues c).type_output ≤ 2) := by
  rw [checkValues_eq]
  refine ⟨?_, ?_, ?_, ?_, ?_, ?_, ?_, ?_, ?_, ?_⟩
  · cases hz : c.zfactor with
    | fin q =>
      simp only [Dbl.le, PAR_DEFAULT_ZFACTOR]
      split_ifs with h
      · right; simp [Dbl.lt]; norm_num
      · right
        simp only [Bool.or_eq_true, decide_eq_true_eq, not_or, not_le] at h
        simpa [Dbl.lt] using h
    | pinf => right; simp [Dbl.le, Dbl.lt, PAR_DEFAULT_ZFACTOR]; norm_num
    | ninf => right; simp [Dbl.le, Dbl.lt, PAR_DEFAULT_ZFACTOR]; norm_num
    | nan => left; simp [Dbl.le]
  · cases hz : c.TOL with
    | fin q =>
      simp only [Dbl.lt, PAR_DEFAULT_TOL]
      split_ifs with h
      · right; simp [Dbl.le]
      · right
        simp only [decide_eq_true_eq, not_lt] at h
        simpa [Dbl.le] using h
    | pinf => right; simp [Dbl.le, Dbl.lt]
    | ninf => right; simp [Dbl.le, Dbl.lt, PAR_DEFAULT_TOL]
    | nan => left; simp [Dbl.lt]
  · simp only [PAR_DEFAULT_TYPE]; split_ifs with h
    · simp
    · omega
  · simp only [PAR_DEFAULT_ROBUST]; split_ifs with h <;> omega
  · cases hz : c.lambda with
    | fin q =>
      simp only [Dbl.lt, PAR_DEFAULT_LAMBDA]
      split_ifs with h
      · right; simp [Dbl.le]
      · right
        simp only [decide_eq_true_eq, not_lt] at h
        simpa [Dbl.le] using h
    | pinf => right; simp [Dbl.le, Dbl.lt]
    | ninf => right; simp [Dbl.le, Dbl.lt, PAR_DEFAULT_LAMBDA]
    | nan => left; simp [Dbl.lt]
  · simp only [PAR_DEFAULT_DELTA]; split_ifs with h <;> omega
  · simp only [PAR_DEFAULT_NANIFOUTSIDE]; split_ifs with h <;> omega
  · simp only [PAR_DEFAULT_GRAYMETHOD]; split_ifs with h <;> omega
  · simp only [PAR_DEFAULT_TYPE_GRADIENT]; split_ifs with h <;> omega
  · simp only [PAR_DEFAULT_OUTPUT]; split_ifs with h <;> omega

/-- When `read_parameters` returns on three or more arguments it returns `1`
and its settings are the checked raw settings. -/
theorem read_parameters_ok (atoi : String → Int) (atof : String → Dbl) (argv : List String)
    (init : Settings) (r : Int) (c : Settings) (hlen : 3 ≤ argv.length)
    (h : read_parameters atoi atof argv init = .ok (r, c)) :
    r = 1 ∧ ∃ raw, rawSettings atoi atof argv init = .ok raw ∧ c = checkValues raw := by
  unfold read_parameters at h
  have hl : ¬ argv.length < 3 := by omega
  simp only [hl, if_false] at h
  cases hraw : rawSettings atoi atof argv init with
  | error e => rw [hraw] at h; cases h
  | ok raw =>
    rw [hraw] at h
    injection h with h
    injection h with h1 h2
    exact ⟨h1.symm, raw, rfl, h2.symm⟩

/-! ## `read_parameters`: the option loop -/

theorem optValue_ok (argv : List String) (flag : String) (set : String → Settings → Settings)
    (s : Nat × Settings) (h : s.1 < argv.length) :
    ∃ t, optValue argv flag set s = .ok t ∧ s.1 ≤ t.1 ∧ t.1 < argv.length := by
  unfold optValue
  rw [List.getElem?_eq_getElem h]
  simp only
  split_ifs with h1 h2
  · have h3 : s.1 + 1 < argv.length := by omega
    rw [List.getElem?_eq_getElem h3]
    exact ⟨_, rfl, Nat.le_succ _, h3⟩
  · exact ⟨s, rfl, le_refl _, h⟩
  · exact ⟨s, rfl, le_refl _, h⟩

theorem optLaplacian_ok (atoi : String → Int) (argv : List String) (s : Nat × Settings)
    (h : s.1 < argv.length) (hlast : argv[argv.length - 1]? ≠ some "-L") :
    ∃ t, optLaplacian atoi argv s = .ok t ∧ s.1 ≤ t.1 ∧ t.1 < argv.length := by
  unfold optLaplacian
  rw [List.getElem?_eq_getElem h]
  simp only
  split_ifs with h1
  · have h3 : s.1 + 1 < argv.length := by
      by_contra hc
      have h4 : argv.length - 1 = s.1 := by omega
      apply hlast
      rw [h4, List.getElem?_eq_getElem h, h1]
    rw [List.getElem?_eq_getElem h3]
    exact ⟨_, rfl, Nat.le_succ _, h3⟩
  · exact ⟨s, rfl, le_refl _, h⟩

theorem optVerbose_ok (argv : List String) (s : Nat × Settings) (h : s.1 < argv.length) :
    ∃ t, optVerbose argv s = .ok t ∧ s.1 ≤ t.1 ∧ t.1 < argv.length := by
  unfold optVerbose
  rw [List.getElem?_eq_getElem h]
  simp only
  split_ifs with h1
  · exact ⟨_, rfl, le_refl _, h⟩
  · exact ⟨s, rfl, le_refl _, h⟩

/-- One iteration of the loop ends normally and advances `i`, unless `-L` is
the last token. -/
theorem loopBody_ok (atoi : String → Int) (atof : String → Dbl) (argv : List String)
    (s : Nat × Settings) (h : s.1 < argv.length)
    (hlast : argv[argv.length - 1]? ≠ some "-L") :
    ∃ t, loopBody atoi atof argv s = .ok t ∧ s.1 < t.1 ∧ t.1 ≤ argv.length := by
  unfold loopBody
  obtain ⟨t1, e1, a1, b1⟩ := optValue_ok argv "-f" (fun v c => { c with outfile := v }) s h
  obtain ⟨t2, e2, a2, b2⟩ := optValue_ok argv "-n" (fun v c => { c with nscales := atoi v }) t1 b1
  obtain ⟨t3, e3, a3, b3⟩ := optValue_ok argv "-z" (fun v c => { c with zfactor := atof v }) t2 b2
  obtain ⟨t4, e4, a4, b4⟩ := optValue_ok argv "-e" (fun v c => { c with TOL := atof v }) t3 b3
  obtain ⟨t5, e5, a5, b5⟩ := optValue_ok argv "-t" (fun v c => { c with nparams := atoi v }) t4 b4
  obtain ⟨t6, e6, a6, b6⟩ := optValue_ok argv "-r" (fun v c => { c with robust := atoi v }) t5 b5
  obtain ⟨t7, e7, a7, b7⟩ := optValue_ok argv "-l" (fun v c => { c with lambda := atof v }) t6 b6
  obtain ⟨t8, e8, a8, b8⟩ :=
    optValue_ok argv "-s" (fun v c => { c with first_scale := atoi v }) t7 b7
  obtain ⟨t9, e9, a9, b9⟩ :=
    optValue_ok argv "-c" (fun v c => { c with graymethod := atoi v }) t8 b8
  obtain ⟨t10, e10, a10, b10⟩ :=
    optValue_ok argv "-d" (fun v c => { c with delta := atoi v }) t9 b9
  obtain ⟨t11, e11, a11, b11⟩ :=
    optValue_ok argv "-p" (fun v c => { c with nanifoutside := atoi v }) t10 b10
  obtain ⟨t12, e12, a12, b12⟩ :=
    optValue_ok argv "-g" (fun v c => { c with type_gradient := atoi v }) t11 b11
  obtain ⟨t13, e13, a13, b13⟩ :=
    optValue_ok argv "-o" (fun v c => { c with type_output := atoi v }) t12 b12
  obtain ⟨t14, e14, a14, b14⟩ := optLaplacian_ok atoi argv t13 b13 hlast
  obtain ⟨t15, e15, a15, b15⟩ := optVerbose_ok argv t14 b14
  refine ⟨(t15.1 + 1, t15.2), ?_, by simp only; omega, by simp only; omega⟩
  simp only [e1, e2, e3, e4, e5, e6, e7, e8, e9, e10, e11, e12, e13, e14, e15, bind,
    Except.bind, pure, Except.pure]

/-- The loop ends normally within `argc` iterations, unless `-L` is the last
token. -/
theorem optionLoop_ok (atoi : String → Int) (atof : String → Dbl) (argv : List String)
    (hlast : argv[argv.length - 1]? ≠ some "-L") (fuel : Nat) (s : Nat × Settings)
    (hf : argv.length - s.1 ≤ fuel) :
    ∃ t, optionLoop atoi atof argv fuel s = .ok t := by
  induction fuel generalizing s with
  | zero =>
    have : ¬ s.1 < argv.length := by omega
    exact ⟨s, by simp [optionLoop, this]⟩
  | succ n ih =>
    unfold optionLoop
    split_ifs with h
    · obtain ⟨t, e, a, b⟩ := loopBody_ok atoi atof argv s h hlast
      rw [e]
      exact ih t (by omega)
    · exact ⟨s, rfl⟩

/-- `read_parameters` returns `1` on every command line with two image
arguments whose last token is not `-L`. -/
theorem read_parameters_returns (atoi : String → Int) (atof : String → Dbl)
    (argv : List String) (init : Settings) (hlen : 3 ≤ argv.length)
    (hlast : argv[argv.length - 1]? ≠ some "-L") :
    ∃ raw, rawSettings atoi atof argv init = .ok raw ∧
      read_parameters atoi atof argv init = .ok (1, checkValues raw) := by
  obtain ⟨t, ht⟩ := optionLoop_ok atoi atof argv hlast argv.length
    (3, assignDefaults argv init) (by simp)
  have hraw : rawSettings atoi atof argv init = .ok t.2 := by
    simp [rawSettings, ht]
  refine ⟨t.2, hraw, ?_⟩
  have hl : ¬ argv.length < 3 := by omega
  simp [read_parameters, hl, hraw]

/-! ## `rgb2gray` -/

theorem tabulate_ok (f : Nat → Except Fault ℚ) (g : Nat → ℚ) (n : Nat)
    (h : ∀ i, i < n → f i = .ok (g i)) : tabulate f n = .ok ((List.range n).map g) := by
  induction n with
  | zero => rfl
  | succ n ih =>
    have h1 := ih (fun i hi => h i (Nat.lt_succ_of_lt hi))
    have h2 := h n (Nat.lt_succ_self n)
    simp [tabulate, h1, h2, List.range_succ]

theorem readAt_ok (buf : List ℚ) (i : Nat) (h : i < buf.length) :
    readAt buf i = .ok (buf.getD i 0) := by
  simp [readAt, List.getD, List.getElem?_eq_getElem h]

/-- The values `rgb2gray` writes for three channels. -/
theorem rgb2gray_three_eq (rgb : List ℚ) (nx ny : Int)
    (hlen : rgb.length = 3 * (nx * ny).toNat) :
    rgb2gray rgb nx ny 3 = .ok ((List.range (nx * ny).toNat).map (fun i =>
      third * (rgb.getD (i * 3) 0 + rgb.getD (i * 3 + 1) 0 + rgb.getD (i * 3 + 2) 0))) := by
  unfold rgb2gray
  simp only [if_true]
  apply tabulate_ok
  intro i hi
  rw [readAt_ok rgb (i * 3) (by omega), readAt_ok rgb (i * 3 + 1) (by omega),
    readAt_ok rgb (i * 3 + 2) (by omega)]
  rfl

/-- C9 (as amended): on a 3-channel buffer of `nx*ny` pixels `rgb2gray` writes,
for every pixel `i < nx*ny`, the value
`0.3333333333333 * (rgb[3i] + rgb[3i+1] + rgb[3i+2])`, which is the unweighted
mean of the three channels minus their sum divided by `3 * 10^13`. -/
theorem rgb2gray_three_channels (rgb : List ℚ) (nx ny : Int)
    (hlen : rgb.length = 3 * (nx * ny).toNat) :
    ∃ gray, rgb2gray rgb nx ny 3 = .ok gray ∧ gray.length = (nx * ny).toNat ∧
      ∀ i, i < (nx * ny).toNat →
        gray[i]? = some (third * (rgb.getD (3 * i) 0 + rgb.getD (3 * i + 1) 0
          + rgb.getD (3 * i + 2) 0)) ∧
        third * (rgb.getD (3 * i) 0 + rgb.getD (3 * i + 1) 0 + rgb.getD (3 * i + 2) 0)
          = (rgb.getD (3 * i) 0 + rgb.getD (3 * i + 1) 0 + rgb.getD (3 * i + 2) 0) / 3
            - (rgb.getD (3 * i) 0 + rgb.getD (3 * i + 1) 0 + rgb.getD (3 * i + 2) 0)
              / 30000000000000 := by
  refine ⟨_, rgb2gray_three_eq rgb nx ny hlen, by simp, ?_⟩
  intro i hi
  constructor
  · simp [List.getElem?_map, List.getElem?_range hi, Nat.mul_comm]
  · unfold third; ring

theorem rgb2gray_three_channels_witness :
    ([3, 6, 9, 10, 20, 30] : List ℚ).length = 3 * ((2 : Int) * 1).toNat ∧
    ∃ gray, rgb2gray [3, 6, 9, 10, 20, 30] 2 1 3 = .ok gray ∧ gray.length = ((2 : Int) * 1).toNat ∧
      ∀ i, i < ((2 : Int) * 1).toNat →
        gray[i]? = some (third * (([3, 6, 9, 10, 20, 30] : List ℚ).getD (3 * i) 0
          + ([3, 6, 9, 10, 20, 30] : List ℚ).getD (3 * i + 1) 0
          + ([3, 6, 9, 10, 20, 30] : List ℚ).getD (3 * i + 2) 0)) ∧
        third * (([3, 6, 9, 10, 20, 30] : List ℚ).getD (3 * i) 0
          + ([3, 6, 9, 10, 20, 30] : List ℚ).getD (3 * i + 1) 0
          + ([3, 6, 9, 10, 20, 30] : List ℚ).getD (3 * i + 2) 0)
          = (([3, 6, 9, 10, 20, 30] : List ℚ).getD (3 * i) 0
              + ([3, 6, 9, 10, 20, 30] : List ℚ).getD (3 * i + 1) 0
              + ([3, 6, 9, 10, 20, 30] : List ℚ).getD (3 * i + 2) 0) / 3
            - (([3, 6, 9, 10, 20, 30] : List ℚ).getD (3 * i) 0
              + ([3, 6, 9, 10, 20, 30] : List ℚ).getD (3 * i + 1) 0
              + ([3, 6, 9, 10, 20, 30] : List ℚ).getD (3 * i + 2) 0) / 30000000000000 :=
  ⟨by decide, rgb2gray_three_channels [3, 6, 9, 10, 20, 30] 2 1 (by decide)⟩

/-- C9 (counterexample): on the single pixel `(1, 1, 1)` `rgb2gray` writes
`0.9999999999999`, not the mean `1`. -/
theorem rgb2gray_not_mean :
    rgb2gray [1, 1, 1] 1 1 3 = .ok [9999999999999 / 10000000000000] ∧
      (9999999999999 / 10000000000000 : ℚ) ≠ (1 + 1 + 1) / 3 := by
  constructor
  · rw [rgb2gray_three_eq [1, 1, 1] 1 1 (by decide)]
    simp [third, List.range_succ]
    norm_num
  · norm_num

/-! ## depth policy -/

/-- C3: the effective level count after line 352 is `N` when `nscales <= 0`,
`N` when `nscales > N`, and `nscales` itself when `0 < nscales <= N`. -/
theorem depthPolicy_cases (N nscales : Int) :
    (nscales ≤ 0 → depthPolicy N nscales = N) ∧
    (N < nscales → depthPolicy N nscales = N) ∧
    (0 < nscales ∧ nscales ≤ N → depthPolicy N nscales = nscales) := by
  refine ⟨fun h => ?_, fun h => ?_, fun h => ?_⟩
  · simp [depthPolicy, h]
  · simp [depthPolicy, h]
  · have h1 : ¬ N < nscales := by omega
    have h2 : ¬ nscales ≤ 0 := by omega
    simp [depthPolicy, h1, h2]

theorem depthPolicy_cases_witness :
    depthPolicy 3 0 = 3 ∧ depthPolicy 3 (-2) = 3 ∧ depthPolicy 3 5 = 3 ∧ depthPolicy 3 2 = 2 :=
  ⟨(depthPolicy_cases 3 0).1 (by decide), (depthPolicy_cases 3 (-2)).1 (by decide),
   (depthPolicy_cases 3 5).2.1 (by decide), (depthPolicy_cases 3 2).2.2 ⟨by decide, by decide⟩⟩

/-! ## parameter vector -/

/-- C8: for `nparams` in {2,3,4,6,8} and any seeds `P0..P7`, lines 365-385
build a vector of length `nparams` with `p[i] = Pi` for every `i < nparams`;
every write is inside the vector and no entry is left uninitialised. -/
theorem initParams_positional (P : Nat → ℚ) (nparams : Int)
    (h : nparams = 2 ∨ nparams = 3 ∨ nparams = 4 ∨ nparams = 6 ∨ nparams = 8) :
    ∃ p, initParams P nparams = .ok p ∧ (p.length : Int) = nparams ∧
      ∀ i : Nat, (i : Int) < nparams → p[i]? = some (some (P i)) := by
  rcases h with rfl | rfl | rfl | rfl | rfl
  · refine ⟨[some (P 0), some (P 1)], by rfl, by rfl, ?_⟩
    intro i hi
    have : i < 2 := by omega
    interval_cases i <;> rfl
  · refine ⟨[some (P 0), some (P 1), some (P 2)], by rfl, by rfl, ?_⟩
    intro i hi
    have : i < 3 := by omega
    interval_cases i <;> rfl
  · refine ⟨[some (P 0), some (P 1), some (P 2), some (P 3)], by rfl, by rfl, ?_⟩
    intro i hi
    have : i < 4 := by omega
    interval_cases i <;> rfl
  · refine ⟨[some (P 0), some (P 1), some (P 2), some (P 3), some (P 4), some (P 5)],
      by rfl, by rfl, ?_⟩
    intro i hi
    have : i < 6 := by omega
    interval_cases i <;> rfl
  · refine ⟨[some (P 0), some (P 1), some (P 2), some (P 3), some (P 4), some (P 5),
      some (P 6), some (P 7)], by rfl, by rfl, ?_⟩
    intro i hi
    have : i < 8 := by omega
    interval_cases i <;> rfl

theorem initParams_positional_witness :
    ((6 : Int) = 2 ∨ (6 : Int) = 3 ∨ (6 : Int) = 4 ∨ (6 : Int) = 6 ∨ (6 : Int) = 8) ∧
    ∃ p, initParams (fun i => (i : ℚ) + 10) 6 = .ok p ∧ (p.length : Int) = 6 ∧
      ∀ i : Nat, (i : Int) < 6 → p[i]? = some (some ((fun i : Nat => (i : ℚ) + 10) i)) :=
  ⟨by decide, initParams_positional (fun i => (i : ℚ) + 10) 6 (by decide)⟩

/-! ## evaluation of read_parameters -/

/-- C6 (failing input): on `prog a b -t 5 -L` the `-L` test hands `argv[argc]`,
the null pointer, to `atoi`; `read_parameters` does not return `1`. -/
theorem read_parameters_t5_trailing_L (atoi : String → Int) (atof : String → Dbl)
    (init : Settings) :
    read_parameters atoi atof ["prog", "a", "b", "-t", "5", "-L"] init = .error .nullArg := by
  rfl

/-- C7 (failing input): on `prog a b -z nan` the value NaN passes the test
`zfactor<=0||zfactor>=1` of line 226; `read_parameters` returns `1` with
`zfactor` NaN, which is not in `(0,1)`. -/
theorem read_parameters_keeps_nan (atoi : String → Int) (init : Settings) :
    ∃ c, read_parameters atoi sampleAtof ["prog", "a", "b", "-z", "nan"] init = .ok (1, c) ∧
      c.zfactor = Dbl.nan ∧ c.zfactor ≠ PAR_DEFAULT_ZFACTOR ∧
      (Dbl.fin 0).lt c.zfactor = false ∧ c.zfactor.lt (.fin 1) = false := by
  have h : (checkValues { assignDefaults ["prog", "a", "b", "-z", "nan"] init with
      zfactor := .nan }).zfactor = Dbl.nan := by
    rw [checkValues_eq]
    simp [Dbl.le]
  refine ⟨checkValues { assignDefaults ["prog", "a", "b", "-z", "nan"] init with
    zfactor := .nan }, rfl, h, ?_, ?_, ?_⟩
  · rw [h]; simp [PAR_DEFAULT_ZFACTOR]
  · rw [h]; rfl
  · rw [h]; rfl

/-! ## `main` -/

/-- The defaults pass every check. -/
theorem checkValues_assignDefaults (argv : List String) (init : Settings) :
    checkValues (assignDefaults argv init) = assignDefaults argv init := by
  rw [checkValues_eq]
  simp [assignDefaults, PAR_DEFAULT_ZFACTOR, PAR_DEFAULT_TOL, PAR_DEFAULT_TYPE,
    PAR_DEFAULT_ROBUST, PAR_DEFAULT_LAMBDA, PAR_DEFAULT_DELTA, PAR_DEFAULT_NANIFOUTSIDE,
    PAR_DEFAULT_GRAYMETHOD, PAR_DEFAULT_TYPE_GRADIENT, PAR_DEFAULT_OUTPUT, Dbl.le, Dbl.lt]

/-- Without options `read_parameters` returns the defaults. -/
theorem read_parameters_no_option (atoi : String → Int) (atof : String → Dbl)
    (prog a b : String) (init : Settings) :
    read_parameters atoi atof [prog, a, b] init = .ok (1, assignDefaults [prog, a, b] init) := by
  rw [← checkValues_assignDefaults]
  rfl

theorem read_parameters_result (atoi : String → Int) (atof : String → Dbl) (argv : List String)
    (init : Settings) (r : Int) (c : Settings)
    (h : read_parameters atoi atof argv init = .ok (r, c)) : r = 0 ∨ r = 1 := by
  unfold read_parameters at h
  split_ifs at h with hl
  · injection h with h; injection h with h1 h2; exact Or.inl h1.symm
  · cases hraw : rawSettings atoi atof argv init with
    | error e => rw [hraw] at h; cases h
    | ok raw =>
      rw [hraw] at h
      injection h with h; injection h with h1 h2; exact Or.inr h1.symm

theorem main_of_accepted (env : Env) (argv : List String) (c : Settings)
    (hp : read_parameters env.atoi env.atof argv env.init = .ok (1, c))
    (ha : accepted (load env.read_image c) = true) :
    main env argv = estimate env c (load env.read_image c) := by
  simp [main, hp, ha]

theorem main_of_rejected (env : Env) (argv : List String) (c : Settings)
    (hp : read_parameters env.atoi env.atof argv env.init = .ok (1, c))
    (ha : accepted (load env.read_image c) = false) :
    main env argv = .ok (idle EXIT_FAILURE) := by
  simp [main, hp, ha]

/-- A run of lines 352-463 that ends normally built the parameter vector and
called the solver. -/
theorem estimateAt_inv (env : Env) (c : Settings) (l : Loaded) (N : Int) (run : Run)
    (h : estimateAt env c l N = .ok run) :
    ∃ p call, initParams env.seed c.nparams = .ok p ∧
      solverArgs c l (depthPolicy N c.nscales) p = .ok call ∧
      run = { status := EXIT_SUCCESS, solver := some call,
              warp := (encode env c l (env.solver call)).1,
              output := (encode env c l (env.solver call)).2 } := by
  cases hpp : initParams env.seed c.nparams with
  | error e => simp [estimateAt, hpp, bind, Except.bind] at h
  | ok p =>
    cases hs : solverArgs c l (depthPolicy N c.nscales) p with
    | error e => simp [estimateAt, hpp, hs, bind, Except.bind] at h
    | ok call =>
      simp [estimateAt, hpp, hs, bind, Except.bind, pure, Except.pure] at h
      exact ⟨p, call, rfl, hs, h.symm⟩

/-- Every run of `main` in which the solver is called went through the branch
of line 347 and through lines 351-448 without a fault. -/
theorem main_solver_inv (env : Env) (argv : List String) (run : Run) (call : SolverCall)
    (hrun : main env argv = .ok run) (hcall : run.solver = some call) :
    ∃ c N p, read_parameters env.atoi env.atof argv env.init = .ok (1, c) ∧
      accepted (load env.read_image c) = true ∧
      levelCount (min (load env.read_image c).nx (load env.read_image c).ny) c.zfactor = .ok N ∧
      initParams env.seed c.nparams = .ok p ∧
      solverArgs c (load env.read_image c) (depthPolicy N c.nscales) p = .ok call ∧
      run.status = EXIT_SUCCESS ∧
      run.warp = (encode env c (load env.read_image c) (env.solver call)).1 ∧
      run.output = (encode env c (load env.read_image c) (env.solver call)).2 := by
  unfold main at hrun
  cases hp : read_parameters env.atoi env.atof argv env.init with
  | error e => rw [hp] at hrun; cases hrun
  | ok rc =>
    obtain ⟨r, c⟩ := rc
    rw [hp] at hrun
    simp only at hrun
    rcases read_parameters_result _ _ _ _ _ _ hp with rfl | rfl
    · simp only [ne_eq, not_true_eq_false, if_false] at hrun
      injection hrun with hrun
      subst hrun
      simp [idle] at hcall
    · simp only [ne_eq, one_ne_zero, not_false_eq_true, if_true] at hrun
      cases ha : accepted (load env.read_image c) with
      | false =>
        simp only [ha] at hrun
        simp at hrun
        subst hrun
        simp [idle] at hcall
      | true =>
        simp only [ha, if_true] at hrun
        unfold estimate at hrun
        cases hN : levelCount (min (load env.read_image c).nx (load env.read_image c).ny)
            c.zfactor with
        | error e => rw [hN] at hrun; cases hrun
        | ok N =>
          rw [hN] at hrun
          simp only at hrun
          obtain ⟨p, call0, hpp, hs, hr⟩ := estimateAt_inv _ _ _ _ _ hrun
          subst hr
          simp only [Option.some.injEq] at hcall
          subst hcall
          exact ⟨c, N, p, rfl, ha, hN, hpp, hs, rfl, rfl, rfl⟩

/-! ## the level bound over the reals -/

theorem logQuot_nonneg (D : ℤ) (z : ℝ) (hD : 32 ≤ D) (hz0 : 0 < z) (hz1 : z < 1) :
    0 ≤ Real.log ((D : ℝ) / 32) / Real.log (1 / z) := by
  have hD' : (32 : ℝ) ≤ (D : ℝ) := by exact_mod_cast hD
  have h1 : 0 ≤ Real.log ((D : ℝ) / 32) := by
    apply Real.log_nonneg
    rw [le_div_iff₀ (by norm_num)]
    linarith
  have h2 : 0 < Real.log (1 / z) := by
    apply Real.log_pos
    rw [lt_div_iff₀ hz0]
    linarith
  exact div_nonneg h1 h2.le

/-- A power of the zoom factor keeps the size at `32` or more exactly when the
exponent is at most the quotient of logarithms of line 351. -/
theorem size_ge_iff (D : ℤ) (z : ℝ) (n : ℤ) (hD : 0 < D) (hz0 : 0 < z) (hz1 : z < 1) :
    32 ≤ (D : ℝ) * z ^ n ↔ (n : ℝ) ≤ Real.log ((D : ℝ) / 32) / Real.log (1 / z) := by
  have hD' : (0 : ℝ) < (D : ℝ) := by exact_mod_cast hD
  have hlz : Real.log z < 0 := Real.log_neg hz0 hz1
  have h2 : 0 < Real.log (1 / z) := by
    rw [one_div, Real.log_inv]; linarith
  have hpow : 0 < z ^ n := zpow_pos hz0 n
  rw [le_div_iff₀ h2, ← Real.log_le_log_iff (by norm_num) (mul_pos hD' hpow),
    Real.log_mul hD'.ne' hpow.ne', Real.log_zpow, Real.log_div hD'.ne' (by norm_num),
    one_div, Real.log_inv]
  constructor <;> intro h <;> linarith

theorem truncInt_of_nonneg (x : ℝ) (h : 0 ≤ x) : truncInt x = ⌊x⌋ := by
  simp [truncInt, h]

/-- For sizes of `32` or more the converted value is `1 + floor`. -/
theorem levelBound_eq_of_ge (D : ℤ) (z : ℝ) (hD : 32 ≤ D) (hz0 : 0 < z) (hz1 : z < 1) :
    levelBound D z = 1 + ⌊Real.log ((D : ℝ) / 32) / Real.log (1 / z)⌋ := by
  have h := logQuot_nonneg D z hD hz0 hz1
  rw [levelBound, truncInt_of_nonneg _ (by linarith), add_comm, Int.floor_add_one, add_comm]

theorem levelBound_pos (D : ℤ) (z : ℝ) (hD : 32 ≤ D) (hz0 : 0 < z) (hz1 : z < 1) :
    1 ≤ levelBound D z := by
  rw [levelBound_eq_of_ge D z hD hz0 hz1]
  have := Int.floor_nonneg.mpr (logQuot_nonneg D z hD hz0 hz1)
  omega

theorem levelBound_32_half : levelBound 32 ((1 / 2 : ℚ) : ℝ) = 1 := by
  simp [levelBound, truncInt]

theorem load_second (rd : String → ReadResult) (c : Settings) :
    (load rd c).I2 = (rd (imageRef c.image2).1).buf ∧
    (load rd c).nx1 = (rd (imageRef c.image2).1).nx ∧
    (load rd c).ny1 = (rd (imageRef c.image2).1).ny ∧
    (load rd c).nz1 = (rd (imageRef c.image2).1).nz := by
  cases h1 : (imageRef c.image1).2 <;> cases h2 : (imageRef c.image2).2 <;>
    simp [load, h1, h2]

theorem load_first (rd : String → ReadResult) (c : Settings) :
    (load rd c).I1 = (rd (imageRef c.image1).1).buf := by
  cases h1 : (imageRef c.image1).2 <;> cases h2 : (imageRef c.image2).2 <;>
    simp [load, h1, h2]

theorem accepted_iff (l : Loaded) :
    accepted l = true ↔
      l.correct1 = true ∧ l.correct2 = true ∧ l.nx = l.nx1 ∧ l.ny = l.ny1 ∧ l.nz = l.nz1 := by
  simp [accepted, and_assoc]

/-- The arguments of the solver call, field by field. -/
theorem solverArgs_inv (c : Settings) (l : Loaded) (n : Int) (p : List (Option ℚ))
    (call : SolverCall) (h : solverArgs c l n p = .ok call) :
    call.nscales = n ∧ call.nx = l.nx ∧ call.ny = l.ny ∧ call.zfactor = c.zfactor ∧
    call.p = p ∧ call.nparams = c.nparams ∧
    ((c.graymethod ≠ 0 ∧ l.nz = 3) →
      call.nz = 1 ∧ rgb2gray l.I1 l.nx l.ny l.nz = .ok call.I1 ∧
      rgb2gray l.I2 l.nx l.ny l.nz = .ok call.I2 ∧
      grayMask l.nx l.ny l.nz l.M1 = .ok call.M1 ∧
      grayMask l.nx l.ny l.nz l.M2 = .ok call.M2) ∧
    (¬ (c.graymethod ≠ 0 ∧ l.nz = 3) →
      call.nz = l.nz ∧ call.I1 = l.I1 ∧ call.I2 = l.I2 ∧ call.M1 = l.M1 ∧ call.M2 = l.M2) := by
  unfold solverArgs at h
  split_ifs at h with hg
  · cases h1 : rgb2gray l.I1 l.nx l.ny l.nz with
    | error e => simp [h1, bind, Except.bind] at h
    | ok I1g =>
      cases h2 : rgb2gray l.I2 l.nx l.ny l.nz with
      | error e => simp [h1, h2, bind, Except.bind] at h
      | ok I2g =>
        cases h3 : grayMask l.nx l.ny l.nz l.M1 with
        | error e => simp [h1, h2, h3, bind, Except.bind] at h
        | ok M1g =>
          cases h4 : grayMask l.nx l.ny l.nz l.M2 with
          | error e => simp [h1, h2, h3, h4, bind, Except.bind] at h
          | ok M2g =>
            simp [h1, h2, h3, h4, bind, Except.bind, pure, Except.pure] at h
            subst h
            simp [hg]
  · simp [pure, Except.pure] at h
    subst h
    simp [hg]

/-- The parameter vector the solver is called with is the one lines 365-385
build. -/
theorem main_passes_parameters (env : Env) (argv : List String) (run : Run)
    (call : SolverCall) (hrun : main env argv = .ok run) (hcall : run.solver = some call) :
    initParams env.seed call.nparams = .ok call.p := by
  obtain ⟨c, N, p, -, -, -, hpp, hs, -, -, -⟩ := main_solver_inv env argv run call hrun hcall
  obtain ⟨-, -, -, -, hp, hn, -, -⟩ := solverArgs_inv _ _ _ _ _ hs
  rw [hp, hn]
  exact hpp

/-- The converse of `main_solver_inv`: the run of `main` when every step
succeeds. -/
theorem main_of_steps (env : Env) (argv : List String) (c : Settings) (N : Int)
    (p : List (Option ℚ)) (call : SolverCall)
    (hp : read_parameters env.atoi env.atof argv env.init = .ok (1, c))
    (ha : accepted (load env.read_image c) = true)
    (hN : levelCount (min (load env.read_image c).nx (load env.read_image c).ny) c.zfactor
      = .ok N)
    (hpp : initParams env.seed c.nparams = .ok p)
    (hs : solverArgs c (load env.read_image c) (depthPolicy N c.nscales) p = .ok call) :
    main env argv = .ok
      { status := EXIT_SUCCESS, solver := some call,
        warp := (encode env c (load env.read_image c) (env.solver call)).1,
        output := (encode env c (load env.read_image c) (env.solver call)).2 } := by
  rw [main_of_accepted env argv c hp ha]
  simp [estimate, hN, estimateAt, hpp, hs, bind, Except.bind, pure, Except.pure]

/-- Without masks, two images of different geometry end in the failure
branch. -/
theorem main_rejects_without_masks (env : Env) (argv : List String) (c : Settings)
    (hp : read_parameters env.atoi env.atof argv env.init = .ok (1, c))
    (hm1 : (imageRef c.image1).2 = none) (hm2 : (imageRef c.image2).2 = none)
    (hne : ¬ ((env.read_image (imageRef c.image1).1).nx = (env.read_image (imageRef c.image2).1).nx ∧
      (env.read_image (imageRef c.image1).1).ny = (env.read_image (imageRef c.image2).1).ny ∧
      (env.read_image (imageRef c.image1).1).nz = (env.read_image (imageRef c.image2).1).nz)) :
    main env argv = .ok (idle EXIT_FAILURE) := by
  apply main_of_rejected env argv c hp
  rw [Bool.eq_false_iff]
  intro ha
  rw [accepted_iff] at ha
  apply hne
  simpa [load, hm1, hm2] using ha.2.2

/-- An image or a mask that fails to decode ends in the failure branch. -/
theorem main_rejects_undecoded (env : Env) (argv : List String) (c : Settings)
    (hp : read_parameters env.atoi env.atof argv env.init = .ok (1, c))
    (h : (env.read_image (imageRef c.image1).1).ok = false ∨
      (env.read_image (imageRef c.image2).1).ok = false ∨
      (∃ m, (imageRef c.image1).2 = some m ∧ (env.read_image m).ok = false) ∨
      (∃ m, (imageRef c.image2).2 = some m ∧ (env.read_image m).ok = false)) :
    main env argv = .ok (idle EXIT_FAILURE) := by
  apply main_of_rejected env argv c hp
  rw [Bool.eq_false_iff]
  intro ha
  rw [accepted_iff] at ha
  obtain ⟨ha1, ha2, -⟩ := ha
  cases h1 : (imageRef c.image1).2 <;> cases h2 : (imageRef c.image2).2 <;>
    simp [load, h1, h2] at ha1 ha2 <;>
    rcases h with h | h | ⟨m, hm, h⟩ | ⟨m, hm, h⟩ <;> simp_all

/-- A mask of the second image whose geometry differs from that of the second
image ends in the failure branch. -/
theorem main_rejects_second_mask (env : Env) (argv : List String) (c : Settings) (m : String)
    (hp : read_parameters env.atoi env.atof argv env.init = .ok (1, c))
    (hm : (imageRef c.image2).2 = some m)
    (hne : ¬ ((env.read_image m).nx = (env.read_image (imageRef c.image2).1).nx ∧
      (env.read_image m).ny = (env.read_image (imageRef c.image2).1).ny ∧
      (env.read_image m).nz = (env.read_image (imageRef c.image2).1).nz)) :
    main env argv = .ok (idle EXIT_FAILURE) := by
  apply main_of_rejected env argv c hp
  rw [Bool.eq_false_iff]
  intro ha
  rw [accepted_iff] at ha
  apply hne
  cases h1 : (imageRef c.image1).2 <;> simpa [load, h1, hm] using ha.2.2

/-- On every command line with two image arguments whose last token is not
`-L`, `read_parameters` returns `1` and `nparams` is the value given to `-t`
when that value is one of 2, 3, 4, 6, 8 and is `8` otherwise. -/
theorem read_parameters_nparams (atoi : String → Int) (atof : String → Dbl)
    (argv : List String) (init : Settings) (hlen : 3 ≤ argv.length)
    (hlast : argv[argv.length - 1]? ≠ some "-L") :
    ∃ raw c, rawSettings atoi atof argv init = .ok raw ∧
      read_parameters atoi atof argv init = .ok (1, c) ∧
      (c.nparams = 2 ∨ c.nparams = 3 ∨ c.nparams = 4 ∨ c.nparams = 6 ∨ c.nparams = 8) ∧
      ((raw.nparams = 2 ∨ raw.nparams = 3 ∨ raw.nparams = 4 ∨ raw.nparams = 6 ∨ raw.nparams = 8)
        → c.nparams = raw.nparams) ∧
      (¬ (raw.nparams = 2 ∨ raw.nparams = 3 ∨ raw.nparams = 4 ∨ raw.nparams = 6 ∨
        raw.nparams = 8) → c.nparams = 8) := by
  obtain ⟨raw, hraw, hrp⟩ := read_parameters_returns atoi atof argv init hlen hlast
  refine ⟨raw, checkValues raw, hraw, hrp, (checkValues_ranges raw).2.2.1, ?_, ?_⟩
  · intro h
    rw [checkValues_eq]
    simp only [PAR_DEFAULT_TYPE]
    split_ifs with h1
    · omega
    · rfl
  · intro h
    rw [checkValues_eq]
    simp only [PAR_DEFAULT_TYPE]
    split_ifs with h1
    · rfl
    · omega

/-! ## runs of `main` on the sample inputs -/

theorem initParams_sample : initParams sampleEnv.seed 8 = .ok (List.replicate 8 (some 0)) := by
  rfl

theorem levelCount_fin (D : ℤ) (q : ℚ) (hD : 0 < D) (h0 : 0 < q) (h1 : q ≠ 1)
    (hr : -2147483648 ≤ levelBound D (q : ℝ) ∧ levelBound D (q : ℝ) ≤ 2147483647) :
    levelCount D (.fin q) = .ok (levelBound D (q : ℝ)) := by
  simp [levelCount, hD, h0, h1, hr]

/-- A level bound outside the range of `int`: the conversion of line 351 is
undefined. -/
theorem levelCount_out_of_range (D : ℤ) (q : ℚ) (hD : 0 < D) (h0 : 0 < q) (h1 : q ≠ 1)
    (hr : 2147483647 < levelBound D (q : ℝ)) :
    levelCount D (.fin q) = .error .badConversion := by
  have hn : ¬ (-2147483648 ≤ levelBound D (q : ℝ) ∧ levelBound D (q : ℝ) ≤ 2147483647) := by
    omega
  simp [levelCount, hD, h0, h1, hn]

/-- The run of `main` on two image references without options, when the loaded
images are accepted and have one channel. -/
theorem main_sample_run (a b : String) (L : Loaded) (N : ℤ)
    (hl : load sampleFiles (assignDefaults ["prog", a, b] noSettings) = L)
    (hacc : accepted L = true) (hnz : L.nz ≠ 3) (hD : 0 < min L.nx L.ny)
    (hN : levelBound (min L.nx L.ny) ((1 / 2 : ℚ) : ℝ) = N)
    (hr : -2147483648 ≤ N ∧ N ≤ 2147483647) :
    main sampleEnv ["prog", a, b] = .ok
      { status := EXIT_SUCCESS
        solver := some
          { I1 := L.I1, I2 := L.I2, M1 := L.M1, M2 := L.M2, p := List.replicate 8 (some 0),
            nparams := 8, nx := L.nx, ny := L.ny, nz := L.nz, nscales := N,
            zfactor := .fin (1 / 2), TOL := .fin (1 / 1000), robust := 3, lambda := .fin 0,
            first_scale := 0, nanifoutside := 1, delta := 5, type_gradient := 3,
            laplacian := 0, verbose := 0 }
        warp := none
        output := some (.save "transform.mat" (List.replicate 8 (some 0)) 8) } := by
  have hm := main_of_steps sampleEnv ["prog", a, b] (assignDefaults ["prog", a, b] noSettings)
    N (List.replicate 8 (some 0))
    { I1 := L.I1, I2 := L.I2, M1 := L.M1, M2 := L.M2, p := List.replicate 8 (some 0),
      nparams := 8, nx := L.nx, ny := L.ny, nz := L.nz, nscales := N,
      zfactor := .fin (1 / 2), TOL := .fin (1 / 1000), robust := 3, lambda := .fin 0,
      first_scale := 0, nanifoutside := 1, delta := 5, type_gradient := 3,
      laplacian := 0, verbose := 0 }
    (read_parameters_no_option _ _ _ _ _ _)
    (by show accepted (load sampleFiles _) = true; rw [hl]; exact hacc)
    (by show levelCount (min (load sampleFiles _).nx (load sampleFiles _).ny) _ = _
        rw [hl, ← hN]
        exact levelCount_fin _ (1 / 2) hD (by norm_num) (by norm_num) (by rw [hN]; exact hr))
    initParams_sample
    (by show solverArgs _ (load sampleFiles _) _ _ = _
        rw [hl]
        have hdp : depthPolicy N 0 = N := by simp [depthPolicy]
        simp [solverArgs, assignDefaults, hdp, hnz, PAR_DEFAULT_GRAYMETHOD, PAR_DEFAULT_TYPE,
          PAR_DEFAULT_ZFACTOR, PAR_DEFAULT_TOL, PAR_DEFAULT_ROBUST, PAR_DEFAULT_LAMBDA,
          PAR_DEFAULT_FIRST_SCALE, PAR_DEFAULT_NANIFOUTSIDE, PAR_DEFAULT_DELTA,
          PAR_DEFAULT_TYPE_GRADIENT, PAR_DEFAULT_VERBOSE, PAR_DEFAULT_NSCALES, pure, Except.pure])
  rw [hm]
  simp [encode, assignDefaults, PAR_DEFAULT_OUTPUT, PAR_DEFAULT_OUTFILE, PAR_DEFAULT_TYPE,
    sampleEnv]

/-- C1 (failing input): both primary images decode, the first as 64x64x1 and
the second as 32x32x1, and the first image names a mask of 32x32x1. The read
of the mask overwrites `nx, ny, nz`, the test of line 347 holds, and `main`
calls the solver with the 4096 values of the first image and `nx = ny = 32`,
writes the output and exits with `EXIT_SUCCESS`. -/
theorem main_mismatched_pair_reaches_solver :
    (sampleFiles "a64.png").ok = true ∧ (sampleFiles "b32.png").ok = true ∧
    (sampleFiles "a64.png").nx ≠ (sampleFiles "b32.png").nx ∧
    ∃ run call, main sampleEnv ["prog", "a64.png:m32.png", "b32.png"] = .ok run ∧
      run.status = EXIT_SUCCESS ∧ run.solver = some call ∧
      call.I1 = blank 4096 ∧ call.I2 = blank 1024 ∧ call.nx = 32 ∧ call.ny = 32 ∧ call.nz = 1 ∧
      run.output = some (.save "transform.mat" (List.replicate 8 (some 0)) 8) := by
  have h1 : imageRef "a64.png:m32.png" = ("a64.png", some "m32.png") := by decide
  have h2 : imageRef "b32.png" = ("b32.png", none) := by decide
  have hl : load sampleFiles (assignDefaults ["prog", "a64.png:m32.png", "b32.png"] noSettings)
      = { correct1 := true, correct2 := true, I1 := blank 4096, I2 := blank 1024,
          M1 := some (blank 1024), M2 := none, nx := 32, ny := 32, nz := 1,
          nx1 := 32, ny1 := 32, nz1 := 1 } := by
    simp [load, assignDefaults, h1, h2, sampleFiles]
  exact ⟨by simp [sampleFiles], by simp [sampleFiles], by simp [sampleFiles], _, _,
    main_sample_run _ _ _ 1 hl rfl (by decide) (by decide) levelBound_32_half (by decide),
    rfl, rfl, rfl, rfl, rfl, rfl, rfl, rfl⟩

/-- C2 (failing input): the mask of the first image decodes as 16x16x1 while
its image is 32x32x1; the second image and its mask are 32x32x1. The read of
the second mask overwrites `nx, ny, nz`, the test of line 347 holds, and `main`
calls the solver with a first mask of 256 values and `nx = ny = 32`, writes
the output and exits with `EXIT_SUCCESS`. -/
theorem main_mismatched_mask_reaches_solver :
    (sampleFiles "m16.png").ok = true ∧
    (sampleFiles "m16.png").nx ≠ (sampleFiles "a32.png").nx ∧
    ∃ run call, main sampleEnv ["prog", "a32.png:m16.png", "b32.png:m32.png"] = .ok run ∧
      run.status = EXIT_SUCCESS ∧ run.solver = some call ∧
      call.I1 = blank 1024 ∧ call.M1 = some (blank 256) ∧ call.M2 = some (blank 1024) ∧
      call.nx = 32 ∧ call.ny = 32 ∧ call.nz = 1 ∧
      run.output = some (.save "transform.mat" (List.replicate 8 (some 0)) 8) := by
  have h1 : imageRef "a32.png:m16.png" = ("a32.png", some "m16.png") := by decide
  have h2 : imageRef "b32.png:m32.png" = ("b32.png", some "m32.png") := by decide
  have hl : load sampleFiles
      (assignDefaults ["prog", "a32.png:m16.png", "b32.png:m32.png"] noSettings)
      = { correct1 := true, correct2 := true, I1 := blank 1024, I2 := blank 1024,
          M1 := some (blank 256), M2 := some (blank 1024), nx := 32, ny := 32, nz := 1,
          nx1 := 32, ny1 := 32, nz1 := 1 } := by
    simp [load, assignDefaults, h1, h2, sampleFiles]
  exact ⟨by simp [sampleFiles], by simp [sampleFiles], _, _,
    main_sample_run _ _ _ 1 hl rfl (by decide) (by decide) levelBound_32_half (by decide),
    rfl, rfl, rfl, rfl, rfl, rfl, rfl, rfl, rfl⟩

/-- C10: in every run that reaches the output encoder with `type_output = 2`
the warped image is computed by `bicubic_interpolation` from the buffer read
for the second image, with the geometry and channel count read for it, and a
buffer of `nx*ny*nz` values is saved with shape `(nx, ny, nz)`; when
`graymethod` is set and `nz = 3` the solver was called with the `rgb2gray`
reduction of that buffer and with channel count `1`. -/
theorem main_warps_second_image (env : Env) (argv : List String) (c : Settings) (run : Run)
    (call : SolverCall)
    (hp : read_parameters env.atoi env.atof argv env.init = .ok (1, c))
    (hrun : main env argv = .ok run) (hcall : run.solver = some call)
    (h2 : c.type_output = 2) :
    ∃ w Iw, run.warp = some w ∧
      w.input = (env.read_image (imageRef c.image2).1).buf ∧
      w.p = env.solver call ∧ w.nparams = c.nparams ∧
      w.nx = (env.read_image (imageRef c.image2).1).nx ∧
      w.ny = (env.read_image (imageRef c.image2).1).ny ∧
      w.nz = (env.read_image (imageRef c.image2).1).nz ∧
      w.delta = 0 ∧ w.nanifoutside = 1 ∧
      run.output = some (.save_image c.outfile Iw w.nx w.ny w.nz) ∧
      Iw.length = (w.nx * w.ny * w.nz).toNat ∧
      (∀ i, i < Iw.length → Iw[i]? = some (env.bicubic w i)) ∧
      (c.graymethod ≠ 0 → w.nz = 3 →
        call.nz = 1 ∧ call.nx = w.nx ∧ call.ny = w.ny ∧
        rgb2gray w.input w.nx w.ny 3 = .ok call.I2) := by
  obtain ⟨c', N, p, hp', ha, hN, hpp, hs, hst, hw, ho⟩ :=
    main_solver_inv env argv run call hrun hcall
  rw [hp] at hp'
  injection hp' with hp'
  injection hp' with _ hc
  subst hc
  obtain ⟨hI2, hx1, hy1, hz1⟩ := load_second env.read_image c
  obtain ⟨-, -, hx, hy, hz⟩ := (accepted_iff _).mp ha
  obtain ⟨-, hcx, hcy, -, -, -, hgray, -⟩ := solverArgs_inv _ _ _ _ _ hs
  have h1 : ¬ c.type_output = 1 := by omega
  have h0 : ¬ c.type_output = 0 := by omega
  simp only [encode, h1, h0, h2, if_true, if_false] at hw ho
  refine ⟨warpArgs c (load env.read_image c) (env.solver call),
    (List.range ((load env.read_image c).nx * (load env.read_image c).ny
      * (load env.read_image c).nz).toNat).map
      (env.bicubic (warpArgs c (load env.read_image c) (env.solver call))),
    hw, ?_, rfl, rfl, ?_, ?_, ?_, rfl, rfl, ?_, ?_, ?_, ?_⟩
  · exact hI2
  · show (load env.read_image c).nx = _
    rw [hx, hx1]
  · show (load env.read_image c).ny = _
    rw [hy, hy1]
  · show (load env.read_image c).nz = _
    rw [hz, hz1]
  · exact ho
  · simp [warpArgs]
  · intro i hi
    simp only [List.length_map, List.length_range] at hi
    simp [List.getElem?_map, List.getElem?_range hi]
  · intro hg h3
    have h3' : (load env.read_image c).nz = 3 := h3
    refine ⟨(hgray ⟨hg, h3'⟩).1, hcx, hcy, ?_⟩
    have hI := (hgray ⟨hg, h3'⟩).2.2.1
    rw [h3'] at hI
    exact hI

/-- `read_parameters` on the sample command line that asks for the warped
image. -/
theorem read_parameters_sample_warp :
    read_parameters sampleEnv.atoi sampleEnv.atof ["prog", "rgb1.png", "rgb2.png", "-o", "2"]
      sampleEnv.init
      = .ok (1, { assignDefaults ["prog", "rgb1.png", "rgb2.png", "-o", "2"] noSettings with
                  type_output := 2 }) := by
  have h : checkValues { assignDefaults ["prog", "rgb1.png", "rgb2.png", "-o", "2"] noSettings
      with type_output := 2 }
      = { assignDefaults ["prog", "rgb1.png", "rgb2.png", "-o", "2"] noSettings with
          type_output := 2 } := by
    rw [checkValues_eq]
    simp [assignDefaults, PAR_DEFAULT_ZFACTOR, PAR_DEFAULT_TOL, PAR_DEFAULT_TYPE,
      PAR_DEFAULT_ROBUST, PAR_DEFAULT_LAMBDA, PAR_DEFAULT_DELTA, PAR_DEFAULT_NANIFOUTSIDE,
      PAR_DEFAULT_GRAYMETHOD, PAR_DEFAULT_TYPE_GRADIENT, PAR_DEFAULT_OUTPUT, Dbl.le, Dbl.lt]
  rw [← h]
  rfl

/-- The run of `main` on that command line reaches the solver. -/
theorem main_sample_warp_runs :
    ∃ run call, main sampleEnv ["prog", "rgb1.png", "rgb2.png", "-o", "2"] = .ok run ∧
      run.solver = some call := by
  have h1 : imageRef "rgb1.png" = ("rgb1.png", none) := by decide
  have h2 : imageRef "rgb2.png" = ("rgb2.png", none) := by decide
  have hl : load sampleFiles
      { assignDefaults ["prog", "rgb1.png", "rgb2.png", "-o", "2"] noSettings with
        type_output := 2 }
      = { correct1 := true, correct2 := true, I1 := blank 3072, I2 := blank 3072,
          M1 := none, M2 := none, nx := 32, ny := 32, nz := 3,
          nx1 := 32, ny1 := 32, nz1 := 3 } := by
    simp [load, assignDefaults, h1, h2, sampleFiles]
  have hg := rgb2gray_three_eq (blank 3072) 32 32
    (by rw [blank, List.length_replicate]; rfl)
  obtain ⟨call, hs⟩ : ∃ call, solverArgs
      { assignDefaults ["prog", "rgb1.png", "rgb2.png", "-o", "2"] noSettings with
        type_output := 2 }
      { correct1 := true, correct2 := true, I1 := blank 3072, I2 := blank 3072,
        M1 := none, M2 := none, nx := 32, ny := 32, nz := 3, nx1 := 32, ny1 := 32, nz1 := 3 }
      (depthPolicy (levelBound 32 ((1 / 2 : ℚ) : ℝ)) 0) (List.replicate 8 (some 0))
      = .ok call := by
    simp [solverArgs, assignDefaults, PAR_DEFAULT_GRAYMETHOD, hg, grayMask, bind, Except.bind,
      pure, Except.pure]
  exact ⟨_, call, main_of_steps sampleEnv _ _ (levelBound 32 ((1 / 2 : ℚ) : ℝ))
    (List.replicate 8 (some 0)) call read_parameters_sample_warp
    (by show accepted (load sampleFiles _) = true; rw [hl]; rfl)
    (by show levelCount (min (load sampleFiles _).nx (load sampleFiles _).ny) _ = _
        rw [hl]
        exact levelCount_fin 32 (1 / 2) (by decide) (by norm_num) (by norm_num)
          (by rw [levelBound_32_half]; decide))
    initParams_sample
    (by show solverArgs _ (load sampleFiles _) _ _ = _
        rw [hl]; exact hs), rfl⟩

theorem main_warps_second_image_witness :
    ∃ run call, main sampleEnv ["prog", "rgb1.png", "rgb2.png", "-o", "2"] = .ok run ∧
      run.solver = some call ∧
      ∃ w Iw, run.warp = some w ∧ w.input = blank 3072 ∧ w.p = sampleEnv.solver call ∧
        w.nparams = 8 ∧ w.nx = 32 ∧ w.ny = 32 ∧ w.nz = 3 ∧ w.delta = 0 ∧ w.nanifoutside = 1 ∧
        run.output = some (.save_image "transform.mat" Iw w.nx w.ny w.nz) ∧
        Iw.length = (w.nx * w.ny * w.nz).toNat ∧
        (∀ i, i < Iw.length → Iw[i]? = some (sampleEnv.bicubic w i)) ∧
        ((1 : Int) ≠ 0 → w.nz = 3 →
          call.nz = 1 ∧ call.nx = w.nx ∧ call.ny = w.ny ∧
          rgb2gray w.input w.nx w.ny 3 = .ok call.I2) := by
  obtain ⟨run, call, hrun, hcall⟩ := main_sample_warp_runs
  have h2 : imageRef "rgb2.png" = ("rgb2.png", none) := by decide
  have hr : sampleEnv.read_image (imageRef "rgb2.png").1
      = { ok := true, buf := blank 3072, nx := 32, ny := 32, nz := 3 } := by
    simp [h2, sampleEnv, sampleFiles]
  have h := main_warps_second_image sampleEnv _ _ run call read_parameters_sample_warp hrun
    hcall rfl
  have e2 : ({ assignDefaults ["prog", "rgb1.png", "rgb2.png", "-o", "2"] noSettings with
      type_output := 2 } : Settings).image2 = "rgb2.png" := rfl
  rw [e2, hr] at h
  exact ⟨run, call, hrun, hcall, h⟩

/-! ## grayscale reduction before the solver call -/

theorem read_parameters_length (atoi : String → Int) (atof : String → Dbl) (argv : List String)
    (init c : Settings) (h : read_parameters atoi atof argv init = .ok (1, c)) :
    3 ≤ argv.length := by
  by_contra hl
  have hl' : argv.length < 3 := by omega
  simp [read_parameters, hl'] at h

theorem grayMask_inv (nx ny nz : Int) (M : Option (List ℚ)) (G : Option (List ℚ))
    (h : grayMask nx ny nz M = .ok G) :
    (M = none → G = none) ∧
    (∀ m, M = some m → ∃ g, rgb2gray m nx ny nz = .ok g ∧ G = some g) := by
  cases M with
  | none =>
    unfold grayMask at h
    injection h with h
    exact ⟨fun _ => h.symm, fun m hm => by cases hm⟩
  | some m0 =>
    refine ⟨fun hm => (by cases hm), ?_⟩
    intro m hm
    injection hm with hm
    subst hm
    cases hg : rgb2gray m0 nx ny nz with
    | error e => simp [grayMask, hg] at h
    | ok g =>
      simp [grayMask, hg] at h
      exact ⟨g, rfl, h.symm⟩

theorem load_masks (rd : String → ReadResult) (c : Settings) :
    (load rd c).M1 = (imageRef c.image1).2.map (fun m => (rd m).buf) ∧
    (load rd c).M2 = (imageRef c.image2).2.map (fun m => (rd m).buf) := by
  cases h1 : (imageRef c.image1).2 <;> cases h2 : (imageRef c.image2).2 <;>
    simp [load, h1, h2]

/-- C11: in every run that reaches the solver, either `graymethod = 1` and
`nz = 3`, and the solver receives the `rgb2gray` reduction of the first image,
of the second image and of each mask that is present (an absent mask stays
absent) with channel count `1`; or the solver receives the four buffers as
they were read, with the channel count `nz`. -/
theorem main_gray_all_or_none (env : Env) (argv : List String) (c : Settings) (run : Run)
    (call : SolverCall)
    (hp : read_parameters env.atoi env.atof argv env.init = .ok (1, c))
    (hrun : main env argv = .ok run) (hcall : run.solver = some call) :
    (load env.read_image c).I1 = (env.read_image (imageRef c.image1).1).buf ∧
    (load env.read_image c).I2 = (env.read_image (imageRef c.image2).1).buf ∧
    (load env.read_image c).M1 = (imageRef c.image1).2.map (fun m => (env.read_image m).buf) ∧
    (load env.read_image c).M2 = (imageRef c.image2).2.map (fun m => (env.read_image m).buf) ∧
    (c.graymethod = 0 ∨ c.graymethod = 1) ∧
    ((c.graymethod = 1 ∧ (load env.read_image c).nz = 3) →
      call.nz = 1 ∧
      rgb2gray (load env.read_image c).I1 call.nx call.ny 3 = .ok call.I1 ∧
      rgb2gray (load env.read_image c).I2 call.nx call.ny 3 = .ok call.I2 ∧
      ((load env.read_image c).M1 = none → call.M1 = none) ∧
      (∀ m, (load env.read_image c).M1 = some m →
        ∃ g, rgb2gray m call.nx call.ny 3 = .ok g ∧ call.M1 = some g) ∧
      ((load env.read_image c).M2 = none → call.M2 = none) ∧
      (∀ m, (load env.read_image c).M2 = some m →
        ∃ g, rgb2gray m call.nx call.ny 3 = .ok g ∧ call.M2 = some g)) ∧
    (¬ (c.graymethod = 1 ∧ (load env.read_image c).nz = 3) →
      call.nz = (load env.read_image c).nz ∧
      call.I1 = (load env.read_image c).I1 ∧ call.I2 = (load env.read_image c).I2 ∧
      call.M1 = (load env.read_image c).M1 ∧ call.M2 = (load env.read_image c).M2) := by
  obtain ⟨c', N, p, hp', ha, hN, hpp, hs, -, -, -⟩ :=
    main_solver_inv env argv run call hrun hcall
  rw [hp] at hp'
  injection hp' with hp'
  injection hp' with _ hc
  subst hc
  obtain ⟨-, raw, -, hraw⟩ := read_parameters_ok _ _ _ _ _ _
    (read_parameters_length _ _ _ _ _ hp) hp
  have hg01 : c.graymethod = 0 ∨ c.graymethod = 1 := by
    rw [hraw]; exact (checkValues_ranges raw).2.2.2.2.2.2.2.1
  obtain ⟨-, hcx, hcy, -, -, -, hgray, hplain⟩ := solverArgs_inv _ _ _ _ _ hs
  refine ⟨load_first _ _, (load_second _ _).1, (load_masks _ _).1, (load_masks _ _).2, hg01,
    ?_, ?_⟩
  · rintro ⟨hg, h3⟩
    have hg' : c.graymethod ≠ 0 := by omega
    obtain ⟨hz, h1, h2, h3', h4⟩ := hgray ⟨hg', h3⟩
    rw [h3, ← hcx, ← hcy] at h1 h2 h3' h4
    obtain ⟨a1, a2⟩ := grayMask_inv _ _ _ _ _ h3'
    obtain ⟨b1, b2⟩ := grayMask_inv _ _ _ _ _ h4
    exact ⟨hz, h1, h2, a1, a2, b1, b2⟩
  · intro hn
    apply hplain
    rintro ⟨hg, h3⟩
    apply hn
    refine ⟨?_, h3⟩
    rcases hg01 with h | h
    · exact absurd h hg
    · exact h

theorem main_gray_all_or_none_witness :
    ∃ run call, main sampleEnv ["prog", "rgb1.png", "rgb2.png", "-o", "2"] = .ok run ∧
      run.solver = some call ∧ call.nz = 1 ∧
      rgb2gray (blank 3072) call.nx call.ny 3 = .ok call.I1 ∧
      rgb2gray (blank 3072) call.nx call.ny 3 = .ok call.I2 ∧
      call.M1 = none ∧ call.M2 = none := by
  obtain ⟨run, call, hrun, hcall⟩ := main_sample_warp_runs
  have h1 : imageRef "rgb1.png" = ("rgb1.png", none) := by decide
  have h2 : imageRef "rgb2.png" = ("rgb2.png", none) := by decide
  have hl : load sampleEnv.read_image
      { assignDefaults ["prog", "rgb1.png", "rgb2.png", "-o", "2"] noSettings with
        type_output := 2 }
      = { correct1 := true, correct2 := true, I1 := blank 3072, I2 := blank 3072,
          M1 := none, M2 := none, nx := 32, ny := 32, nz := 3,
          nx1 := 32, ny1 := 32, nz1 := 3 } := by
    simp [load, assignDefaults, h1, h2, sampleFiles, sampleEnv]
  have h := (main_gray_all_or_none sampleEnv _ _ run call read_parameters_sample_warp hrun
    hcall).2.2.2.2.2.1
  rw [hl] at h
  obtain ⟨a, b, c, d, -, e, -⟩ := h ⟨rfl, rfl⟩
  exact ⟨run, call, hrun, hcall, a, b, c, d rfl, e rfl⟩

/-! ## image references -/

theorem splitColon_of_not_mem (l : List Char) (h : ':' ∉ l) : splitColon l = (l, none) := by
  induction l with
  | nil => rfl
  | cons c cs ih =>
    have hc : c ≠ ':' := fun e => h (by simp [e])
    have hcs : ':' ∉ cs := fun e => h (List.mem_cons_of_mem _ e)
    simp [splitColon, hc, ih hcs]

theorem splitColon_of_mem (l : List Char) (h : ':' ∈ l) :
    ∃ p m, splitColon l = (p, some m) ∧ p ++ ':' :: m = l ∧ ':' ∉ p := by
  induction l with
  | nil => simp at h
  | cons c cs ih =>
    by_cases hc : c = ':'
    · exact ⟨[], cs, by simp [splitColon, hc], by simp [hc], by simp⟩
    · have hcs : ':' ∈ cs := by
        rcases List.mem_cons.mp h with e | e
        · exact absurd e.symm hc
        · exact e
      obtain ⟨p, m, e1, e2, e3⟩ := ih hcs
      refine ⟨c :: p, m, by simp [splitColon, hc, e1], by simp [e2], ?_⟩
      intro hm
      rcases List.mem_cons.mp hm with e | e
      · exact hc e.symm
      · exact e3 e

/-- C12: an image reference without a colon is the image path and names no
mask; a reference with a colon is split at its first colon into the image
path (which holds no colon) and the mask path (which keeps every later
colon), so that image path, colon and mask path together are the reference. -/
theorem imageRef_split (s : String) :
    (':' ∉ s.data → imageRef s = (s, none)) ∧
    (':' ∈ s.data → ∃ p m, imageRef s = (p, some m) ∧ p ++ ":" ++ m = s ∧ ':' ∉ p.data) := by
  constructor
  · intro h
    simp [imageRef, splitColon_of_not_mem s.data h]
  · intro h
    obtain ⟨p, m, e1, e2, e3⟩ := splitColon_of_mem s.data h
    refine ⟨String.mk p, String.mk m, by simp [imageRef, e1], ?_, e3⟩
    apply String.ext
    simp [String.data_append, ← e2]

theorem imageRef_split_witness :
    imageRef "a.png" = ("a.png", none) ∧
    ∃ p m, imageRef "a.png:m:x.png" = (p, some m) ∧ p ++ ":" ++ m = "a.png:m:x.png" ∧
      ':' ∉ p.data :=
  ⟨(imageRef_split "a.png").1 (by decide), (imageRef_split "a.png:m:x.png").2 (by decide)⟩

theorem imageRef_later_colons : imageRef "a.png:m:x.png" = ("a.png", some "m:x.png") := by
  decide

/-! ## the level bound and its documented value -/

/-- C14 (failing input): on `prog a b -L` (`argc = 4`) the `-L` test of lines
216-217, reached at `i = 3`, hands `argv[4] = argv[argc]` to `atoi`; the option
loop and `read_parameters` leave defined behaviour. -/
theorem optionLoop_reads_past_end (atoi : String → Int) (atof : String → Dbl)
    (init : Settings) :
    optLaplacian atoi ["prog", "a", "b", "-L"] (3, assignDefaults ["prog", "a", "b", "-L"] init)
      = .error .nullArg ∧
    loopBody atoi atof ["prog", "a", "b", "-L"]
      (3, assignDefaults ["prog", "a", "b", "-L"] init) = .error .nullArg ∧
    read_parameters atoi atof ["prog", "a", "b", "-L"] init = .error .nullArg :=
  ⟨rfl, rfl, rfl⟩

/-- A value consumed by a guarded option is tested again by the tests that
follow: on `prog a b -f -L` the `-L` test reads `argv[argc]` as well. -/
theorem optionLoop_reexamines_value (atoi : String → Int) (atof : String → Dbl)
    (init : Settings) :
    read_parameters atoi atof ["prog", "a", "b", "-f", "-L"] init = .error .nullArg := by
  rfl

/-! ## range of the effective level count -/

theorem depthPolicy_range (N nscales : ℤ) (hN : 1 ≤ N) :
    1 ≤ depthPolicy N nscales ∧ depthPolicy N nscales ≤ N := by
  unfold depthPolicy
  split_ifs with h <;> omega

/-- In every run in which `main` calls the solver, so that the conversion of
line 351 was defined, with sizes `nx, ny` such that `min(nx, ny) >= 32` and with
a zoom factor `z` in `(0,1)`, the level count `L` it passes satisfies
`1 <= L <= N`, `N` being the level bound of line 351 read over the real numbers
for `min(nx, ny)` and `z`; this holds for every caller-supplied `nscales`. -/
theorem main_level_count_range (env : Env) (argv : List String) (run : Run)
    (call : SolverCall) (q : ℚ) (hrun : main env argv = .ok run)
    (hcall : run.solver = some call) (hz : call.zfactor = .fin q) (hq0 : 0 < q)
    (hq1 : q < 1) (hD : 32 ≤ min call.nx call.ny) :
    1 ≤ call.nscales ∧ call.nscales ≤ levelBound (min call.nx call.ny) (q : ℝ) := by
  obtain ⟨c, N, p, hp, ha, hN, hpp, hs, -, -, -⟩ := main_solver_inv env argv run call hrun hcall
  obtain ⟨hn, hx, hy, hzf, -, -, -, -⟩ := solverArgs_inv _ _ _ _ _ hs
  rw [← hzf, hz, ← hx, ← hy] at hN
  have hD0 : 0 < min call.nx call.ny := by omega
  have hq1' : q ≠ 1 := ne_of_lt hq1
  simp only [levelCount, hD0, hq0, hq1', ne_eq, not_false_eq_true, and_self, if_true] at hN
  split_ifs at hN with hr
  injection hN with hN
  rw [hn, hN]
  exact depthPolicy_range N c.nscales
    (by rw [← hN]; exact levelBound_pos _ _ hD (by exact_mod_cast hq0) (by exact_mod_cast hq1))

theorem main_level_count_range_witness :
    ∃ run call, main sampleEnv ["prog", "a32.png", "m32.png"] = .ok run ∧
      run.solver = some call ∧ call.zfactor = .fin (1 / 2) ∧ 32 ≤ min call.nx call.ny ∧
      1 ≤ call.nscales ∧ call.nscales ≤ levelBound (min call.nx call.ny) ((1 / 2 : ℚ) : ℝ) := by
  have h1 : imageRef "a32.png" = ("a32.png", none) := by decide
  have h2 : imageRef "m32.png" = ("m32.png", none) := by decide
  have hl : load sampleFiles (assignDefaults ["prog", "a32.png", "m32.png"] noSettings)
      = { correct1 := true, correct2 := true, I1 := blank 1024, I2 := blank 1024,
          M1 := none, M2 := none, nx := 32, ny := 32, nz := 1,
          nx1 := 32, ny1 := 32, nz1 := 1 } := by
    simp [load, assignDefaults, h1, h2, sampleFiles]
  have hm := main_sample_run _ _ _ 1 hl rfl (by decide) (by decide) levelBound_32_half (by decide)
  exact ⟨_, _, hm, rfl, rfl, by decide,
    main_level_count_range sampleEnv _ _ _ (1 / 2) hm rfl rfl (by norm_num) (by norm_num)
      (by decide)⟩

/-! ## a level bound outside the range of `int` -/

/-- Bernoulli's inequality for the zoom factor `1 - 10^-12`: over the real
numbers the level bound for the size `64` exceeds every `n` with
`n * 10^-12 <= 1/2`. -/
theorem levelBound_64_zoom_ge (n : ℕ) (hn : (n : ℝ) * (1 / 1000000000000) ≤ 1 / 2) :
    (n : ℤ) + 1 ≤ levelBound 64 ((999999999999 / 1000000000000 : ℚ) : ℝ) := by
  have hz : ((999999999999 / 1000000000000 : ℚ) : ℝ) = 1 + -(1 / 1000000000000) := by
    norm_num
  have hz0 : (0 : ℝ) < ((999999999999 / 1000000000000 : ℚ) : ℝ) := by norm_num
  have hz1 : ((999999999999 / 1000000000000 : ℚ) : ℝ) < 1 := by norm_num
  have hb := one_add_mul_le_pow (R := ℝ) (a := -(1 / 1000000000000)) (by norm_num) n
  rw [← hz] at hb
  have hq : (((n : ℤ)) : ℝ)
      ≤ Real.log (((64 : ℤ) : ℝ) / 32)
        / Real.log (1 / ((999999999999 / 1000000000000 : ℚ) : ℝ)) := by
    rw [← size_ge_iff 64 _ (n : ℤ) (by decide) hz0 hz1, zpow_natCast]
    have h64 : (((64 : ℤ)) : ℝ) = 64 := by norm_num
    rw [h64]
    linarith
  have hf := Int.le_floor.mpr hq
  rw [levelBound_eq_of_ge 64 _ (by decide) hz0 hz1]
  omega

/-- Over the real numbers the level bound for the size `64` and the zoom factor
`0.999999999999` exceeds `INT_MAX`. -/
theorem levelBound_64_zoom :
    2147483647 < levelBound 64 ((999999999999 / 1000000000000 : ℚ) : ℝ) := by
  have h := levelBound_64_zoom_ge 2147483648 (by norm_num)
  have hc : ((2147483648 : ℕ) : ℤ) = 2147483648 := by norm_cast
  rw [hc] at h
  omega

/-- `read_parameters` on the command line with the zoom factor
`0.999999999999`: the value passes the check of line 226. -/
theorem read_parameters_zoom :
    read_parameters zoomEnv.atoi zoomEnv.atof
      ["prog", "a64.png", "a64.png", "-z", "0.999999999999"] zoomEnv.init
      = .ok (1, { assignDefaults ["prog", "a64.png", "a64.png", "-z", "0.999999999999"]
                    noSettings with
                  zfactor := .fin (999999999999 / 1000000000000) }) := by
  have h : checkValues
      { assignDefaults ["prog", "a64.png", "a64.png", "-z", "0.999999999999"] noSettings with
        zfactor := .fin (999999999999 / 1000000000000) }
      = { assignDefaults ["prog", "a64.png", "a64.png", "-z", "0.999999999999"] noSettings with
          zfactor := .fin (999999999999 / 1000000000000) } := by
    rw [checkValues_eq]
    simp [assignDefaults, PAR_DEFAULT_ZFACTOR, PAR_DEFAULT_TOL, PAR_DEFAULT_TYPE,
      PAR_DEFAULT_ROBUST, PAR_DEFAULT_LAMBDA, PAR_DEFAULT_DELTA, PAR_DEFAULT_NANIFOUTSIDE,
      PAR_DEFAULT_GRAYMETHOD, PAR_DEFAULT_TYPE_GRADIENT, PAR_DEFAULT_OUTPUT, Dbl.le, Dbl.lt]
    norm_num
  rw [← h]
  rfl

/-- C15 (failing input): on `prog a64.png a64.png -z 0.999999999999` the two
images are accepted with `min(nx, ny) = 64 >= 32` and the zoom factor is a
validated value in `(0,1)`, but the value of line 351 exceeds `INT_MAX`: its
conversion to `int` is undefined and `main` leaves defined behaviour before the
depth policy, so no level count `L` with `1 <= L <= N` is passed to the solver. -/
theorem main_level_conversion_undefined :
    ∃ c, read_parameters zoomEnv.atoi zoomEnv.atof
        ["prog", "a64.png", "a64.png", "-z", "0.999999999999"] zoomEnv.init = .ok (1, c) ∧
      c.zfactor = .fin (999999999999 / 1000000000000) ∧
      accepted (load zoomEnv.read_image c) = true ∧
      min (load zoomEnv.read_image c).nx (load zoomEnv.read_image c).ny = 64 ∧
      2147483647 < levelBound 64 ((999999999999 / 1000000000000 : ℚ) : ℝ) ∧
      main zoomEnv ["prog", "a64.png", "a64.png", "-z", "0.999999999999"]
        = .error .badConversion := by
  have h1 : imageRef "a64.png" = ("a64.png", none) := by decide
  have hl : load zoomEnv.read_image
      { assignDefaults ["prog", "a64.png", "a64.png", "-z", "0.999999999999"] noSettings with
        zfactor := .fin (999999999999 / 1000000000000) }
      = { correct1 := true, correct2 := true, I1 := blank 4096, I2 := blank 4096,
          M1 := none, M2 := none, nx := 64, ny := 64, nz := 1,
          nx1 := 64, ny1 := 64, nz1 := 1 } := by
    simp [load, assignDefaults, h1, sampleFiles, zoomEnv, sampleEnv]
  have ha : accepted (load zoomEnv.read_image
      { assignDefaults ["prog", "a64.png", "a64.png", "-z", "0.999999999999"] noSettings with
        zfactor := .fin (999999999999 / 1000000000000) }) = true := by
    rw [hl]; rfl
  refine ⟨_, read_parameters_zoom, rfl, ha, by rw [hl]; rfl, levelBound_64_zoom, ?_⟩
  rw [main_of_accepted zoomEnv _ _ read_parameters_zoom ha]
  unfold estimate
  rw [hl]
  have hN : levelCount (min 64 64) (Dbl.fin (999999999999 / 1000000000000))
      = .error .badConversion :=
    levelCount_out_of_range 64 _ (by decide) (by norm_num) (by norm_num) levelBound_64_zoom
  simp only [hN]

end InvComp
